import Mathlib

/-
Verification of the blocky voxel mesher (src/meshers/blocky/voxel_mesher_blocky.cpp
and src/meshers/blocky/voxel_blocky_model.h) against its specification.

Shallow embedding conventions:
- C++ float arithmetic is embedded as exact rational arithmetic (ℚ); all operations
  the claims mention (addition, clamped subtraction, multiplication by powers of two,
  linear interpolation) are exact in both.
- Machine integers are embedded as Nat / Int; voxel ids are Nat.
- Dynamic arrays (StdVector) are Lean lists; FixedArray<T, N> is a list of length N,
  indexed with List.getD / List.set (List.set is a no-op out of range, mirroring the
  assert-guarded accesses).
- Thread-local scratch buffers are passed as explicit state (MeshState).
- Code of this repository that is not under src/ (cube_tables.cpp, math utilities,
  the library base class, the fluid class header) is modelled from the spec where
  indicated by a doc comment starting with: Modelled from the spec.
-/

namespace VoxelBlocky

/-- 2D float vector (Vector2f), floats embedded as exact rationals. -/
structure V2 where
  vx : ℚ
  vy : ℚ
deriving DecidableEq

/-- 3D float vector (Vector3f), floats embedded as exact rationals. -/
structure V3 where
  vx : ℚ
  vy : ℚ
  vz : ℚ
deriving DecidableEq

/-- Componentwise vector addition (Vector3f operator+). -/
def V3.add (a b : V3) : V3 := ⟨a.vx + b.vx, a.vy + b.vy, a.vz + b.vz⟩

/-- Scalar multiplication (Vector3f operator* with a float). -/
def V3.smul (k : ℚ) (a : V3) : V3 := ⟨k * a.vx, k * a.vy, k * a.vz⟩

/-- Squared distance between two points (math::distance_squared). -/
def distSq (a b : V3) : ℚ :=
  (a.vx - b.vx) * (a.vx - b.vx) + (a.vy - b.vy) * (a.vy - b.vy) +
    (a.vz - b.vz) * (a.vz - b.vz)

/-- Swizzle v.zyx() from Vector3T. -/
def V3.zyx (a : V3) : V3 := ⟨a.vz, a.vy, a.vx⟩

/-- Swizzle v.yzx() from Vector3T. -/
def V3.yzx (a : V3) : V3 := ⟨a.vy, a.vz, a.vx⟩

/-- RGBA color (Godot Color), floats embedded as exact rationals. -/
structure Col where
  r : ℚ
  g : ℚ
  b : ℚ
  a : ℚ
deriving DecidableEq

/-- Modelled from the spec: math::lerp from util/math/funcs.h (not under src/),
standard linear interpolation. -/
def lerp (a b t : ℚ) : ℚ := a + (b - a) * t

/-- Modelled from the spec: math::clamp from util/math/funcs.h (not under src/),
standard clamping of v into the closed interval from lo to hi. -/
def clampQ (v lo hi : ℚ) : ℚ := if v < lo then lo else if hi < v then hi else v

/-- Reads of the raw channel buffer: type_buffer at a (signed) flat index; all
accesses performed by the mesher on well-sized buffers are in range. -/
def bufAt (buf : List Nat) (i : Int) : Nat :=
  if 0 ≤ i then buf.getD i.toNat 0 else 0

/-- Fluid flow states (VoxelBlockyFluid::FlowState; header not under src/, the
constructors are the nine states named in the spec). -/
inductive FlowState
  | idle
  | straightPosX
  | straightNegX
  | straightPosZ
  | straightNegZ
  | diagPosXPosZ
  | diagPosXNegZ
  | diagNegXPosZ
  | diagNegXNegZ
deriving DecidableEq

/-- Modelled from the spec: numeric codes of the FlowState enum, used only as the
UV.y flow hint written into fluid vertex UVs. -/
def flowCode : FlowState → ℚ
  | .idle => 0
  | .straightPosX => 1
  | .straightNegX => 2
  | .straightPosZ => 3
  | .straightNegZ => 4
  | .diagPosXPosZ => 5
  | .diagPosXNegZ => 6
  | .diagNegXPosZ => 7
  | .diagNegXNegZ => 8

/-- The 16-entry table g_min_corners_mask_to_flowstate, entry by entry from the
source (voxel_mesher_blocky.cpp lines 67-102). -/
def minCornersMaskToFlowState : List FlowState :=
  [.idle, .diagPosXPosZ, .diagNegXPosZ, .straightPosZ,
   .diagNegXNegZ, .idle, .straightNegX, .diagNegXPosZ,
   .diagPosXNegZ, .straightPosX, .idle, .diagPosXPosZ,
   .straightNegZ, .diagPosXNegZ, .diagNegXNegZ, .idle]

/-- Modelled from the spec: 4-argument math::min (util not under src/), the
minimum of four values. -/
def min4 (a b c d : Nat) : Nat := min (min (min a b) c) d

/-- Modelled from the spec: 4-argument math::max (util not under src/), the
maximum of four values. -/
def max4 (a b c d : Nat) : Nat := max (max (max a b) c) d

/-- get_fluid_flow_state_from_corner_levels (source lines 104-119): minimum corner
level, 4-bit mask of corners at the minimum (corner 0 at bit 3 down to corner 3 at
bit 0), table lookup. -/
def getFluidFlowStateFromCornerLevels (cl : List Nat) : FlowState :=
  let c0 := cl.getD 0 0
  let c1 := cl.getD 1 0
  let c2 := cl.getD 2 0
  let c3 := cl.getD 3 0
  let minLevel := min4 c0 c1 c2 c3
  let mask :=
    ((if c0 = minLevel then 1 else 0) <<< 3) |||
    ((if c1 = minLevel then 1 else 0) <<< 2) |||
    ((if c2 = minLevel then 1 else 0) <<< 1) |||
    (if c3 = minLevel then 1 else 0)
  minCornersMaskToFlowState.getD mask .idle

/-- get_corner_levels_from_fluid_levels (source lines 121-140). -/
def getCornerLevelsFromFluidLevels (fl : List Nat) : List Nat :=
  [max4 (fl.getD 1 0) (fl.getD 2 0) (fl.getD 4 0) (fl.getD 5 0),
   max4 (fl.getD 0 0) (fl.getD 1 0) (fl.getD 3 0) (fl.getD 4 0),
   max4 (fl.getD 3 0) (fl.getD 4 0) (fl.getD 6 0) (fl.getD 7 0),
   max4 (fl.getD 4 0) (fl.getD 5 0) (fl.getD 7 0) (fl.getD 8 0)]

/-- Per-side skirt template of a baked fluid (VoxelBlockyFluid::Surface; header
not under src/, fields are those read by the mesher: positions, indices,
tangents). -/
structure FluidSurface where
  positions : List V3
  indices : List Int
  tangents : List ℚ
deriving DecidableEq

/-- Default (empty) fluid surface template. -/
def FluidSurface.empty : FluidSurface := ⟨[], [], []⟩

/-- Baked fluid data (VoxelBlockyFluid::BakedData; header not under src/). The
named heights BOTTOM_HEIGHT and TOP_HEIGHT are, per the spec, library-provided
constants; they are carried here as fields. -/
structure BakedFluid where
  side_surfaces : List FluidSurface
  material_id : Nat
  max_level : Nat
  dip_when_flowing_down : Bool
  bottom_height : ℚ
  top_height : ℚ
deriving DecidableEq

/-- Default baked fluid. -/
def BakedFluid.empty : BakedFluid := ⟨[], 0, 1, false, 0, 1⟩

/-- get_corner_heights_from_corner_levels (source lines 142-168): each corner
level is mapped through lerp(BOTTOM_HEIGHT, TOP_HEIGHT, level * (1 / max_level)). -/
def getCornerHeightsFromCornerLevels (cl : List Nat) (fluid : BakedFluid) : List ℚ :=
  let maxLevelInv : ℚ := 1 / (fluid.max_level : ℚ)
  let levelToHeight := fun (level : Nat) =>
    lerp fluid.bottom_height fluid.top_height ((level : ℚ) * maxLevelInv)
  [levelToHeight (cl.getD 0 0), levelToHeight (cl.getD 1 0),
   levelToHeight (cl.getD 2 0), levelToHeight (cl.getD 3 0)]

/-- Specification-side restatement of the min-corner mask for C8: bit 3 set iff
corner 0 equals the minimum corner level, down to bit 0 for corner 3, written as a
weighted sum of indicators. -/
def specMinCornersMask (cl : List Nat) : Nat :=
  let m := min (cl.getD 0 0) (min (cl.getD 1 0) (min (cl.getD 2 0) (cl.getD 3 0)))
  8 * (if cl.getD 0 0 = m then 1 else 0) +
  4 * (if cl.getD 1 0 = m then 1 else 0) +
  2 * (if cl.getD 2 0 = m then 1 else 0) +
  (if cl.getD 3 0 = m then 1 else 0)

/-- Specification-side maximum of a list of fluid levels (C7 formulas). -/
def listMax (l : List Nat) : Nat := l.foldr max 0

/-
Cube tables. The tables g_side_normals, g_side_edges, g_edge_corners,
g_side_corners, g_corner_position and g_opposite_side live in
constants/cube_tables.cpp, which is not under src/. They are modelled from the
spec (section on geometry primitives): sides are numbered in the order
NEG_X, POS_X, NEG_Y, POS_Y, NEG_Z, POS_Z; corners are the points of the unit
cube; edges and corners are identified by the sides they lie on, matching the
naming used to build the neighbor lookup tables in generate_blocky_mesh.
The side-to-stride assignment below is taken verbatim from the source
(side_neighbor_lut, lines 488-494), with names resolved in spec order.
-/

/-- x coordinate bit of corner c (corners are numbered c = x + 2 y + 4 z). -/
def cornerX (c : Nat) : Nat := c % 2

/-- y coordinate bit of corner c. -/
def cornerY (c : Nat) : Nat := (c / 2) % 2

/-- z coordinate bit of corner c. -/
def cornerZ (c : Nat) : Nat := (c / 4) % 2

/-- Modelled from the spec: g_corner_position, corners of the unit cube in
{0,1}^3. -/
def cornerPosition (c : Nat) : V3 := ⟨(cornerX c : ℚ), (cornerY c : ℚ), (cornerZ c : ℚ)⟩

/-- Whether corner c lies on the face of side s. Side 0 steps by +x in the flat
index (side_neighbor_lut assigns it +row_size), so its face holds the corners
with x = 1; similarly for the other sides. -/
def sideHasCorner (s c : Nat) : Bool :=
  match s with
  | 0 => cornerX c == 1
  | 1 => cornerX c == 0
  | 2 => cornerY c == 0
  | 3 => cornerY c == 1
  | 4 => cornerZ c == 0
  | 5 => cornerZ c == 1
  | _ => false

/-- Modelled from the spec: g_side_corners, the 4 corners of the face of side s. -/
def sideCorners (s : Nat) : List Nat :=
  (List.range 8).filter (fun c => sideHasCorner s c)

/-- The two sides each of the 12 edges lies on, listed in the order the source
builds edge_neighbor_lut (BOTTOM_BACK, BOTTOM_FRONT, BOTTOM_LEFT, BOTTOM_RIGHT,
BACK_LEFT, BACK_RIGHT, FRONT_LEFT, FRONT_RIGHT, TOP_BACK, TOP_FRONT, TOP_LEFT,
TOP_RIGHT) with BOTTOM = 2, TOP = 3, BACK = 4, FRONT = 5, LEFT = 0, RIGHT = 1. -/
def edgeSidesList : List (Nat × Nat) :=
  [(2, 4), (2, 5), (2, 0), (2, 1), (4, 0), (4, 1),
   (5, 0), (5, 1), (3, 4), (3, 5), (3, 0), (3, 1)]

/-- The pair of sides of edge e. -/
def edgeSides (e : Nat) : Nat × Nat := edgeSidesList.getD e (0, 0)

/-- Modelled from the spec: g_edge_corners as a list, the corners lying on both
sides of edge e. -/
def edgeCornersList (e : Nat) : List Nat :=
  (List.range 8).filter (fun c => sideHasCorner (edgeSides e).1 c && sideHasCorner (edgeSides e).2 c)

/-- First corner of edge e (g_edge_corners[e][0]). -/
def edgeCorner0 (e : Nat) : Nat := (edgeCornersList e).getD 0 0

/-- Second corner of edge e (g_edge_corners[e][1]). -/
def edgeCorner1 (e : Nat) : Nat := (edgeCornersList e).getD 1 0

/-- Modelled from the spec: g_side_edges, the 4 edges bounding the face of
side s. -/
def sideEdges (s : Nat) : List Nat :=
  (List.range 12).filter (fun e => (edgeSides e).1 == s || (edgeSides e).2 == s)

/-- side_neighbor_lut (source lines 488-494): flat-index offset of the neighbor
across side s, given row_size = block_size.y and deck_size = block_size.x *
row_size. -/
def sideNeighborLut (rowSize deckSize : Int) (s : Nat) : Int :=
  match s with
  | 0 => rowSize
  | 1 => -rowSize
  | 2 => -1
  | 3 => 1
  | 4 => -deckSize
  | 5 => deckSize
  | _ => 0

/-- edge_neighbor_lut (source lines 496-513): sum of the two side offsets of the
edge. -/
def edgeNeighborLut (rowSize deckSize : Int) (e : Nat) : Int :=
  sideNeighborLut rowSize deckSize (edgeSides e).1 +
    sideNeighborLut rowSize deckSize (edgeSides e).2

/-- corner_neighbor_lut (source lines 515-539): sum of the three side offsets of
the corner. -/
def cornerNeighborLut (rowSize deckSize : Int) (c : Nat) : Int :=
  (if cornerX c == 1 then rowSize else -rowSize) +
    (if cornerY c == 1 then 1 else -1) +
    (if cornerZ c == 1 then deckSize else -deckSize)

/-- Modelled from the spec: g_opposite_side, the side-opposite map. -/
def oppositeSide (s : Nat) : Nat :=
  match s with
  | 0 => 1
  | 1 => 0
  | 2 => 3
  | 3 => 2
  | 4 => 5
  | 5 => 4
  | _ => s

/-- Modelled from the spec: g_side_normals, the outward unit normal of side s
(same direction as the side's neighbor offset). -/
def sideNormal (s : Nat) : V3 :=
  match s with
  | 0 => ⟨1, 0, 0⟩
  | 1 => ⟨-1, 0, 0⟩
  | 2 => ⟨0, -1, 0⟩
  | 3 => ⟨0, 1, 0⟩
  | 4 => ⟨0, 0, -1⟩
  | 5 => ⟨0, 0, 1⟩
  | _ => ⟨0, 0, 0⟩

/-
Baked data model (voxel_blocky_model.h, which is under src/).
-/

/-- VoxelBlockyModel::SideSurface: a mesh patch on one cube face. -/
structure SideSurface where
  positions : List V3
  uvs : List V2
  indices : List Int
  tangents : List ℚ
deriving DecidableEq

/-- Empty side surface. -/
def SideSurface.empty : SideSurface := ⟨[], [], [], []⟩

/-- VoxelBlockyModel::Surface: the inside part of a model for one material. -/
structure Surface where
  positions : List V3
  normals : List V3
  uvs : List V2
  indices : List Int
  tangents : List ℚ
  material_id : Nat
  collision_enabled : Bool
deriving DecidableEq

/-- Empty surface. -/
def Surface.empty : Surface := ⟨[], [], [], [], [], 0, true⟩

/-- VoxelBlockyModel::BakedData::Model. surfaces has up to MAX_SURFACES = 2
entries; sides_surfaces has 6 entries of up to 2 side surfaces each;
cutout_side_surfaces maps, per side, a neighbor shape id to pre-cut side
surfaces (the unordered_map is embedded as an association list). -/
structure Model where
  surfaces : List Surface
  sides_surfaces : List (List SideSurface)
  surface_count : Nat
  empty_sides_mask : Nat
  side_pattern_indices : List Nat
  cutout_side_surfaces : List (List (Nat × List SideSurface))
deriving DecidableEq

/-- Empty model. -/
def Model.empty : Model :=
  ⟨[], [[], [], [], [], [], []], 0, 0, [0, 0, 0, 0, 0, 0], [[], [], [], [], [], []]⟩

/-- VoxelBlockyModel::BakedData. NULL_FLUID_INDEX = 255 means not a fluid. -/
structure BakedModel where
  model : Model
  color : Col
  transparency_index : Nat
  culls_neighbors : Bool
  contributes_to_ao : Bool
  cutout_sides_enabled : Bool
  fluid_index : Nat
  fluid_level : Nat
deriving DecidableEq

/-- Default baked model (an air-like model with no geometry). -/
def BakedModel.air : BakedModel :=
  ⟨Model.empty, ⟨1, 1, 1, 1⟩, 0, true, true, false, 255, 0⟩

/-- VoxelBlockyLibraryBase::BakedData (header not under src/; fields are the
ones the spec lists for the library interface). side_pattern_culling is the
precomputed occlusion oracle of the spec: side_pattern_culling pa pb is true
iff pattern pa is fully covered by the opposite pattern pb. -/
structure BakedLibrary where
  models : List BakedModel
  fluids : List BakedFluid
  indexed_materials_count : Nat
  side_pattern_culling : Nat → Nat → Bool

/-- has_model (spec: true iff id < models.len()). -/
def hasModel (lib : BakedLibrary) (id : Nat) : Prop := id < lib.models.length

instance (lib : BakedLibrary) (id : Nat) : Decidable (hasModel lib id) :=
  inferInstanceAs (Decidable (id < lib.models.length))

/-- Model table lookup. -/
def modelOf (lib : BakedLibrary) (id : Nat) : BakedModel := lib.models.getD id BakedModel.air

/-- contributes_to_ao helper (source lines 22-28): unknown ids count as
contributing. -/
def contributesToAo (lib : BakedLibrary) (id : Nat) : Bool :=
  if id < lib.models.length then (modelOf lib id).contributes_to_ao else true

/-
Fluid face generator (source lines 35-65 and 184-420).
-/

/-- copy(VoxelBlockyFluid::Surface, Vector2f, SideSurface) (source lines 35-44):
positions, indices and tangents are copied, UVs are filled with the given value. -/
def copyFluidSide (src : FluidSurface) (uv : V2) : SideSurface :=
  ⟨src.positions, List.replicate src.positions.length uv, src.indices, src.tangents⟩

/-- copy_positions_normals_tangents (source lines 46-65): builds the fluid top
Surface from the top skirt template; normals are filled with the given normal,
UVs are left for the caller, collision is disabled. -/
def copyFluidTop (src : FluidSurface) (normal : V3) (materialId : Nat) : Surface :=
  ⟨src.positions, List.replicate src.positions.length normal, [], src.indices,
   src.tangents, materialId, false⟩

/-- Overwrite the y coordinate of entry i of a position list (in-place vertex
mutation in the source; a no-op out of range, matching the fixed-size templates). -/
def setPosY (l : List V3) (i : Nat) (yv : ℚ) : List V3 :=
  match l.get? i with
  | some p => l.set i ⟨p.vx, yv, p.vz⟩
  | none => l

/-- transpose_quad_triangles (source lines 184-191): {0,2,1,0,3,2} becomes
{0,3,1,1,3,2}. -/
def transposeQuadTriangles (ind : List Int) : List Int :=
  (ind.set 1 (ind.getD 4 0)).set 3 (ind.getD 2 0)

/-- One iteration of the 3x3 neighbor sampling loop of generate_fluid_model
(source lines 285-337): returns the sampled fluid level and whether the cell
above that neighbor is the same fluid (the covered bit, never set for the center
cell i = 4). Index i runs the loop order dz in -1..1 outer, dx in -1..1 inner. -/
def fluidNeighborSample (voxel : BakedModel) (fluid : BakedFluid) (buf : List Nat)
    (idx jy jx jz : Int) (lib : BakedLibrary) (i : Nat) : Nat × Bool :=
  let dz : Int := ((i / 3 : Nat) : Int) - 1
  let dx : Int := ((i % 3 : Nat) : Int) - 1
  let nloc := idx + dx * jx + dz * jz
  let nid := bufAt buf nloc
  if nid < lib.models.length then
    let nm := modelOf lib nid
    if nm.fluid_index = voxel.fluid_index then
      let covered :=
        i ≠ 4 ∧
          (let anid := bufAt buf (nloc + jy)
           anid ≠ 0 ∧ anid < lib.models.length ∧
             (modelOf lib anid).fluid_index = voxel.fluid_index)
      let level := nm.fluid_level
      let level :=
        if fluid.dip_when_flowing_down ∧ nm.fluid_level ≠ fluid.max_level ∧ ¬ covered then
          let bnid := bufAt buf (nloc - jy)
          if bnid = 0 then 0
          else if bnid < lib.models.length ∧
              (modelOf lib bnid).fluid_index = voxel.fluid_index then 0
          else level
        else level
      (level, covered)
    else (0, false)
  else (0, false)

/-- Result of generate_fluid_model: the rebound model surfaces, side surfaces
and surface count consumed by the main mesher. -/
structure FluidModelData where
  surfaces : List Surface
  sides : List (List SideSurface)
  surfaceCount : Nat
deriving DecidableEq

/-- generate_fluid_model (source lines 193-420). The per-thread scratch is
rebuilt functionally; the top side surface of the scratch is never written by
the source (only cleared), hence always empty. -/
def generateFluidModel (voxel : BakedModel) (buf : List Nat) (idx : Int)
    (jy jx jz : Int) (lib : BakedLibrary) : FluidModelData :=
  let topId := bufAt buf (idx + jy)
  let fluidTopCovered :=
    topId < lib.models.length ∧ (modelOf lib topId).fluid_index = voxel.fluid_index
  let fluid := lib.fluids.getD voxel.fluid_index BakedFluid.empty
  let sNegX := copyFluidSide (fluid.side_surfaces.getD 0 FluidSurface.empty)
    ⟨0, flowCode .straightPosZ⟩
  let sPosX := copyFluidSide (fluid.side_surfaces.getD 1 FluidSurface.empty)
    ⟨0, flowCode .straightPosZ⟩
  let sNegZ := copyFluidSide (fluid.side_surfaces.getD 4 FluidSurface.empty)
    ⟨2, flowCode .straightPosZ⟩
  let sPosZ := copyFluidSide (fluid.side_surfaces.getD 5 FluidSurface.empty)
    ⟨2, flowCode .straightPosZ⟩
  let sBottom := copyFluidSide (fluid.side_surfaces.getD 2 FluidSurface.empty)
    ⟨1, flowCode .idle⟩
  if fluidTopCovered then
    { surfaces := voxel.model.surfaces,
      sides := [[sNegX], [sPosX], [sBottom], [SideSurface.empty], [sNegZ], [sPosZ]],
      surfaceCount := 1 }
  else
    let samples := (List.range 9).map (fluidNeighborSample voxel fluid buf idx jy jx jz lib)
    let fluidLevels := samples.map Prod.fst
    let coveredNeighbors := (List.range 9).foldl
      (fun acc i => if (samples.getD i (0, false)).2 then acc ||| (1 <<< i) else acc) 0
    let cornerLevels := getCornerLevelsFromFluidLevels fluidLevels
    let flowState := getFluidFlowStateFromCornerLevels cornerLevels
    let ch := getCornerHeightsFromCornerLevels cornerLevels fluid
    let ch := if coveredNeighbors &&& 11 ≠ 0 then ch.set 1 1 else ch
    let ch := if coveredNeighbors &&& 38 ≠ 0 then ch.set 0 1 else ch
    let ch := if coveredNeighbors &&& 200 ≠ 0 then ch.set 2 1 else ch
    let ch := if coveredNeighbors &&& 416 ≠ 0 then ch.set 3 1 else ch
    let top := copyFluidTop (fluid.side_surfaces.getD 3 FluidSurface.empty)
      ⟨0, 1, 0⟩ fluid.material_id
    let top := { top with uvs := List.replicate 4 ⟨1, flowCode flowState⟩ }
    let sNegX := { sNegX with
      positions := setPosY (setPosY sNegX.positions 2 (ch.getD 2 0)) 3 (ch.getD 1 0) }
    let sPosX := { sPosX with
      positions := setPosY (setPosY sPosX.positions 2 (ch.getD 0 0)) 3 (ch.getD 3 0) }
    let sNegZ := { sNegZ with
      positions := setPosY (setPosY sNegZ.positions 2 (ch.getD 1 0)) 3 (ch.getD 0 0) }
    let sPosZ := { sPosZ with
      positions := setPosY (setPosY sPosZ.positions 2 (ch.getD 3 0)) 3 (ch.getD 2 0) }
    let topPositions := setPosY (setPosY (setPosY (setPosY top.positions
      0 (ch.getD 0 0)) 1 (ch.getD 1 0)) 2 (ch.getD 2 0)) 3 (ch.getD 3 0)
    let topIndices :=
      if flowState = .diagPosXPosZ ∨ flowState = .diagNegXNegZ then
        transposeQuadTriangles top.indices
      else top.indices
    { surfaces := [{ top with positions := topPositions, indices := topIndices }],
      sides := [[sNegX], [sPosX], [sBottom], [SideSurface.empty], [sNegZ], [sPosZ]],
      surfaceCount := 1 }

/-
AO baker (source lines 636-667 for the shaded corners; 729-757 for the
per-vertex shading).
-/

/-- Increment entry i of the shaded-corner array. -/
def bumpAt (l : List Nat) (i : Nat) : List Nat := l.set i (l.getD i 0 + 1)

/-- The shaded_corner computation of a visible face (source lines 636-667):
first every contributing edge-adjacent neighbor increments the two corners of
its edge, then every side corner at exactly 2 saturates to 3 and otherwise is
incremented when its corner-diagonal neighbor contributes. edgeContrib e and
cornerContrib c report whether the neighbor across edge e, and across corner c,
contributes to AO. -/
def computeShadedCorners (edgeContrib : Nat → Bool) (cornerContrib : Nat → Bool)
    (side : Nat) : List Nat :=
  let sc := List.replicate 8 0
  let sc := (sideEdges side).foldl
    (fun sc e => if edgeContrib e then bumpAt (bumpAt sc (edgeCorner0 e)) (edgeCorner1 e) else sc)
    sc
  (sideCorners side).foldl
    (fun sc c =>
      if sc.getD c 0 = 2 then sc.set c 3
      else if cornerContrib c then bumpAt sc c else sc)
    sc

/-- Per-vertex shade (source lines 737-754): running maximum over the side's 4
corners of darkness * count * (squared-distance falloff clamped at 0), skipping
corners with a zero count. -/
def shadeForVertex (dk : ℚ) (shadedCorner : List Nat) (side : Nat) (v : V3) : ℚ :=
  (sideCorners side).foldl
    (fun shade corner =>
      if shadedCorner.getD corner 0 ≠ 0 then
        let s := dk * ((shadedCorner.getD corner 0 : Nat) : ℚ)
        let k := 1 - distSq (cornerPosition corner) v
        let k := if k < 0 then 0 else k
        let s := s * k
        if s > shade then s else shade
      else shade)
    0

/-- The vertex color written for a shaded vertex (source lines 755-756):
Color(gs, gs, gs) * modulate_color with gs = 1 - shade; the Color constructor
fills alpha with 1 and Color multiplication is componentwise. -/
def shadedVertexColor (shade : ℚ) (modulate : Col) : Col :=
  ⟨(1 - shade) * modulate.r, (1 - shade) * modulate.g, (1 - shade) * modulate.b,
   1 * modulate.a⟩

/-- Specification-side shade formula for C6: the maximum over the side's 4
corners of d * count * max(0, 1 - squared distance from the corner to the
vertex). -/
def specShade (dk : ℚ) (shadedCorner : List Nat) (side : Nat) (v : V3) : ℚ :=
  List.foldl max 0 ((sideCorners side).map (fun corner =>
    dk * ((shadedCorner.getD corner 0 : Nat) : ℚ) *
      max 0 (1 - distSq (cornerPosition corner) v)))

/-- Specification-side count for C6: how many of the side's contributing
edge-adjacent neighbors touch corner c. -/
def contributingEdgeCount (edgeContrib : Nat → Bool) (side c : Nat) : Nat :=
  (sideEdges side).countP (fun e => edgeContrib e && (c == edgeCorner0 e || c == edgeCorner1 e))

/-- Specification-side shaded-corner value for C6: the edge count, saturated to
3 at exactly 2, otherwise incremented when the corner-diagonal neighbor
contributes. -/
def specShadedCorner (edgeContrib cornerContrib : Nat → Bool) (side c : Nat) : Nat :=
  if contributingEdgeCount edgeContrib side c = 2 then 3
  else contributingEdgeCount edgeContrib side c + (if cornerContrib c then 1 else 0)

/-
Output arrays and the emission code of the main mesher
(source lines 452-872).
-/

/-- VoxelMesherBlocky::Arrays: one set of mesh arrays per material. -/
structure Arrays where
  positions : List V3
  normals : List V3
  uvs : List V2
  colors : List Col
  indices : List Int
  tangents : List ℚ
deriving DecidableEq

/-- Cleared per-material arrays. -/
def Arrays.empty : Arrays := ⟨[], [], [], [], [], []⟩

/-- VoxelMesher::Output::CollisionSurface. -/
structure CollisionSurface where
  positions : List V3
  indices : List Int
deriving DecidableEq

/-- The mutable state of one meshing pass: the per-material arrays, the
collision surface, the per-material running index offsets (tls_index_offsets)
and the collision index offset. -/
structure MeshState where
  arrays : List Arrays
  collision : CollisionSurface
  indexOffsets : List Int
  collisionIndexOffset : Int
deriving DecidableEq

/-- Cleared mesh state for a given material count. -/
def emptyMeshState (n : Nat) : MeshState :=
  ⟨List.replicate n Arrays.empty, ⟨[], []⟩, List.replicate n 0, 0⟩

/-- Collision sub-state: the collision surface together with its running index
offset. -/
structure CollAcc where
  positions : List V3
  indices : List Int
  offset : Int
deriving DecidableEq

/-- Collision sub-state of a mesh state. -/
def MeshState.collAcc (st : MeshState) : CollAcc :=
  ⟨st.collision.positions, st.collision.indices, st.collisionIndexOffset⟩

/-- The collision mirroring block (source lines 778-801 and 853-865): when the
collision surface exists and the surface has collision enabled, positions
(shifted by the voxel position) and indices (rebased by the collision offset)
are appended, and the offset advances by the vertex count. -/
def collAppend (collisionOn enabled : Bool) (pos : V3) (ssPositions : List V3)
    (ssIndices : List Int) (acc : CollAcc) : CollAcc :=
  if collisionOn && enabled then
    ⟨acc.positions ++ ssPositions.map (fun p => p.add pos),
     acc.indices ++ ssIndices.map (fun j => acc.offset + j),
     acc.offset + ssPositions.length⟩
  else acc

/-- Emission of one side surface in the sides pass (source lines 673-804):
positions shifted by the voxel position, UVs copied, tangents copied (4 floats
per vertex) when present, normals filled with the side normal, colors either
shaded or the modulate color, indices rebased by the per-material offset, the
collision mirror, and the offset advance. -/
def emitSideSurface (bakeOcclusion : Bool) (dk : ℚ) (shadedCorner : List Nat)
    (side : Nat) (pos : V3) (modulate : Col) (collisionOn : Bool)
    (surface : Surface) (side_surface : SideSurface) (st : MeshState) : MeshState :=
  let m := surface.material_id
  let arr := st.arrays.getD m Arrays.empty
  let indexOffset := st.indexOffsets.getD m 0
  let vc := side_surface.positions.length
  let newColors :=
    if bakeOcclusion then
      side_surface.positions.map (fun v =>
        shadedVertexColor (shadeForVertex dk shadedCorner side v) modulate)
    else List.replicate vc modulate
  let arr2 : Arrays :=
    { positions := arr.positions ++ side_surface.positions.map (fun p => p.add pos),
      normals := arr.normals ++ List.replicate vc (sideNormal side),
      uvs := arr.uvs ++ (List.range vc).map (fun i => side_surface.uvs.getD i ⟨0, 0⟩),
      colors := arr.colors ++ newColors,
      indices := arr.indices ++ side_surface.indices.map (fun j => indexOffset + j),
      tangents := arr.tangents ++
        (if side_surface.tangents.length > 0 then
          (List.range (vc * 4)).map (fun i => side_surface.tangents.getD i 0)
        else []) }
  let ca := collAppend collisionOn surface.collision_enabled pos
    side_surface.positions side_surface.indices st.collAcc
  { arrays := st.arrays.set m arr2,
    collision := ⟨ca.positions, ca.indices⟩,
    indexOffsets := st.indexOffsets.set m (indexOffset + vc),
    collisionIndexOffset := ca.offset }

/-- Emission of one inner surface (source lines 808-868): skipped when empty,
no ambient occlusion, colors are the modulate color. -/
def emitInner (collisionOn : Bool) (modulate : Col) (pos : V3) (surface : Surface)
    (st : MeshState) : MeshState :=
  if surface.positions.length = 0 then st
  else
    let m := surface.material_id
    let arr := st.arrays.getD m Arrays.empty
    let indexOffset := st.indexOffsets.getD m 0
    let vc := surface.positions.length
    let arr2 : Arrays :=
      { positions := arr.positions ++ surface.positions.map (fun p => p.add pos),
        normals := arr.normals ++ (List.range vc).map (fun i => surface.normals.getD i ⟨0, 0, 0⟩),
        uvs := arr.uvs ++ (List.range vc).map (fun i => surface.uvs.getD i ⟨0, 0⟩),
        colors := arr.colors ++ List.replicate vc modulate,
        indices := arr.indices ++ surface.indices.map (fun j => indexOffset + j),
        tangents := arr.tangents ++
          (if surface.tangents.length > 0 then
            (List.range (vc * 4)).map (fun i => surface.tangents.getD i 0)
          else []) }
    let ca := collAppend collisionOn surface.collision_enabled pos
      surface.positions surface.indices st.collAcc
    { arrays := st.arrays.set m arr2,
      collision := ⟨ca.positions, ca.indices⟩,
      indexOffsets := st.indexOffsets.set m (indexOffset + vc),
      collisionIndexOffset := ca.offset }

/-- Modelled from the spec: is_face_visible_regardless_of_shape (library base
header not under src/): true when the neighbor does not cull neighbors or the
transparency indices differ. -/
def isFaceVisibleRegardlessOfShape (a b : BakedModel) : Bool :=
  !b.culls_neighbors || (a.transparency_index != b.transparency_index)

/-- Modelled from the spec: is_face_visible_according_to_shape (library base
header not under src/): the face is visible iff the library's precomputed table
does not say the side pattern of a is fully covered by the opposite side
pattern of b. -/
def isFaceVisibleAccordingToShape (lib : BakedLibrary) (a b : BakedModel) (side : Nat) : Bool :=
  let pa := a.model.side_pattern_indices.getD side 0
  let pb := b.model.side_pattern_indices.getD (oppositeSide side) 0
  !(lib.side_pattern_culling pa pb)

/-- unordered_map::find on the embedded cutout association list. -/
def assocFind (l : List (Nat × List SideSurface)) (k : Nat) : Option (List SideSurface) :=
  match l.find? (fun pr => pr.1 == k) with
  | some pr => some pr.2
  | none => none

/-- The visibility decision of the sides pass (source lines 594-632): none means
the face is culled; some gives the side surfaces to render (the default ones, or
a pre-cut set). A neighbor id outside the model table is treated like air: the
face is visible with its default side surfaces. -/
def sideVisibility (lib : BakedLibrary) (voxel : BakedModel) (side : Nat)
    (neighborId : Nat) (dflt : List SideSurface) : Option (List SideSurface) :=
  if neighborId < lib.models.length then
    let other := modelOf lib neighborId
    if isFaceVisibleRegardlessOfShape voxel other then some dflt
    else if !(isFaceVisibleAccordingToShape lib voxel other side) then none
    else if voxel.cutout_sides_enabled then
      let pb := other.model.side_pattern_indices.getD (oppositeSide side) 0
      match assocFind (voxel.model.cutout_side_surfaces.getD side []) pb with
      | some ss => some ss
      | none => some dflt
    else some dflt
  else some dflt

/-- The sides pass for one side of one voxel (source lines 588-805): skip empty
sides, decide visibility against the neighbor, optionally bake occlusion, then
emit every surface of the model. -/
def meshSide (lib : BakedLibrary) (buf : List Nat) (rowSize deckSize : Int)
    (bakeOcclusion : Bool) (dk : ℚ) (collisionOn : Bool)
    (voxel : BakedModel) (modelSurfaces : List Surface)
    (modelSides : List (List SideSurface)) (surfaceCount : Nat)
    (idx : Int) (pos : V3) (side : Nat) (st : MeshState) : MeshState :=
  if voxel.model.empty_sides_mask.testBit side then st
  else
    let neighborId := bufAt buf (idx + sideNeighborLut rowSize deckSize side)
    match sideVisibility lib voxel side neighborId (modelSides.getD side []) with
    | none => st
    | some sideSurfaces =>
      let shadedCorner :=
        if bakeOcclusion then
          computeShadedCorners
            (fun e => contributesToAo lib (bufAt buf (idx + edgeNeighborLut rowSize deckSize e)))
            (fun c => contributesToAo lib (bufAt buf (idx + cornerNeighborLut rowSize deckSize c)))
            side
        else List.replicate 8 0
      (List.range surfaceCount).foldl
        (fun st k =>
          emitSideSurface bakeOcclusion dk shadedCorner side pos voxel.color collisionOn
            (modelSurfaces.getD k Surface.empty) (sideSurfaces.getD k SideSurface.empty) st)
        st

/-- One interior voxel of the main meshing pass (source lines 550-868): skip air
and unknown ids, rebind the model data for fluids, run the sides pass then the
inside pass. -/
def meshVoxel (lib : BakedLibrary) (buf : List Nat) (rowSize deckSize : Int)
    (bakeOcclusion : Bool) (dk : ℚ) (collisionOn : Bool)
    (x y z : Nat) (st : MeshState) : MeshState :=
  let idx : Int := (y : Int) + (x : Int) * rowSize + (z : Int) * deckSize
  let voxelId := bufAt buf idx
  if voxelId = 0 then st
  else if ¬ hasModel lib voxelId then st
  else
    let voxel := modelOf lib voxelId
    let fd : FluidModelData :=
      if voxel.fluid_index ≠ 255 then
        generateFluidModel voxel buf idx 1 rowSize deckSize lib
      else
        ⟨voxel.model.surfaces, voxel.model.sides_surfaces, voxel.model.surface_count⟩
    let pos : V3 := ⟨(x : ℚ) - 1, (y : ℚ) - 1, (z : ℚ) - 1⟩
    let st := (List.range 6).foldl
      (fun st side =>
        meshSide lib buf rowSize deckSize bakeOcclusion dk collisionOn voxel
          fd.surfaces fd.sides fd.surfaceCount idx pos side st)
      st
    (List.range fd.surfaceCount).foldl
      (fun st k => emitInner collisionOn voxel.color pos (fd.surfaces.getD k Surface.empty) st)
      st

/-- generate_blocky_mesh (source lines 452-872): guard the padding invariant,
then visit the interior voxels in z-major, then x, then y order. -/
def generateBlockyMesh (lib : BakedLibrary) (buf : List Nat)
    (blockSize : Nat × Nat × Nat) (bakeOcclusion : Bool) (dk : ℚ)
    (collisionOn : Bool) (materialCount : Nat) : MeshState :=
  let st := emptyMeshState materialCount
  if blockSize.1 < 2 ∨ blockSize.2.1 < 2 ∨ blockSize.2.2 < 2 then st
  else
    let rowSize : Int := blockSize.2.1
    let deckSize : Int := blockSize.1 * blockSize.2.1
    (List.range' 1 (blockSize.2.2 - 2)).foldl (fun st z =>
      (List.range' 1 (blockSize.1 - 2)).foldl (fun st x =>
        (List.range' 1 (blockSize.2.1 - 2)).foldl (fun st y =>
          meshVoxel lib buf rowSize deckSize bakeOcclusion dk collisionOn x y z st) st) st) st

/-
Seam appender (source lines 874-1069).
-/

/-- get_side_sign (source lines 892-906). -/
def getSideSign (side : Nat) : Int :=
  match side with
  | 0 => -1
  | 2 => -1
  | 4 => -1
  | _ => 1

/-- side_to_block_coordinates (source lines 874-890). -/
def sideToBlockCoordinates (v : V3) (side : Nat) : V3 :=
  match side with
  | 0 => v.zyx
  | 1 => v.zyx
  | 2 => v.yzx
  | 3 => v.yzx
  | _ => v

/-- One cell of append_side_seams (source lines 936-1039). Ids are compared only
against AIR = 0 here: there is no has_model check on the outer voxel, the inner
voxel, or the in-plane neighbors; the inner voxel id nv4 indexes the model table
without a bounds check (an out-of-range id is embedded as the air-like default
model). Note that the source indexes the per-surface side-surface array with the
side number (line 978). -/
def seamCell (buf : List Nat) (jump : Int × Int × Int) (z : Int) (side : Nat)
    (lib : BakedLibrary) (x y : Nat) (st : MeshState) : MeshState :=
  let bi := (x : Int) * jump.1 + (y : Int) * jump.2.1 + z * jump.2.2
  let v := bufAt buf bi
  if v = 0 then st
  else
    let nv0 := bufAt buf (bi - jump.1)
    let nv1 := bufAt buf (bi + jump.1)
    let nv2 := bufAt buf (bi - jump.2.1)
    let nv3 := bufAt buf (bi + jump.2.1)
    if nv0 ≠ 0 ∧ nv1 ≠ 0 ∧ nv2 ≠ 0 ∧ nv3 ≠ 0 then st
    else
      let sgn := getSideSign side
      let nv4 := bufAt buf (bi - sgn * jump.2.2)
      if nv4 = 0 then st
      else
        let pos := sideToBlockCoordinates
          ⟨(x : ℚ) - 1, (y : ℚ) - 1, (z : ℚ) - ((sgn : ℚ) + 1)⟩ side
        let voxelBakedData := modelOf lib nv4
        let model := voxelBakedData.model
        let sideSurfaces := model.sides_surfaces.getD side []
        (List.range model.surface_count).foldl (fun st k =>
          let surface := model.surfaces.getD k Surface.empty
          let m := surface.material_id
          let arr := st.arrays.getD m Arrays.empty
          let side_surface := sideSurfaces.getD side SideSurface.empty
          let vc := side_surface.positions.length
          let indexOffset : Int := arr.positions.length
          let arr2 : Arrays :=
            { positions := arr.positions ++ side_surface.positions.map (fun p => p.add pos),
              normals := arr.normals ++ List.replicate vc (sideNormal side),
              uvs := arr.uvs ++ (List.range vc).map (fun i => side_surface.uvs.getD i ⟨0, 0⟩),
              colors := arr.colors ++ List.replicate vc voxelBakedData.color,
              indices := arr.indices ++ side_surface.indices.map (fun j => indexOffset + j),
              tangents := arr.tangents ++
                (if side_surface.tangents.length > 0 then
                  (List.range (vc * 4)).map (fun i => side_surface.tangents.getD i 0)
                else []) }
          { st with arrays := st.arrays.set m arr2 }) st

/-- append_side_seams (source lines 913-1041): walk the 2D interior of one outer
face layer. -/
def appendSideSeams (buf : List Nat) (jump : Int × Int × Int) (z : Int)
    (sizeX sizeY : Nat) (side : Nat) (lib : BakedLibrary) (st : MeshState) : MeshState :=
  (List.range' 1 (sizeX - 2)).foldl (fun st x =>
    (List.range' 1 (sizeY - 2)).foldl (fun st y =>
      seamCell buf jump z side lib x y st) st) st

/-- append_seams (source lines 1043-1069): the six face layers with the swizzled
jumps of the source. -/
def appendSeams (buf : List Nat) (blockSize : Nat × Nat × Nat)
    (lib : BakedLibrary) (st : MeshState) : MeshState :=
  let sx := blockSize.1
  let sy := blockSize.2.1
  let sz := blockSize.2.2
  let jx : Int := sy
  let jy : Int := 1
  let jz : Int := sx * sy
  let st := appendSideSeams buf (jx, jy, jz) 0 sx sy 4 lib st
  let st := appendSideSeams buf (jx, jy, jz) ((sz : Int) - 1) sx sy 5 lib st
  let st := appendSideSeams buf (jz, jy, jx) 0 sz sy 0 lib st
  let st := appendSideSeams buf (jz, jy, jx) ((sx : Int) - 1) sz sy 1 lib st
  let st := appendSideSeams buf (jz, jx, jy) 0 sz sx 2 lib st
  appendSideSeams buf (jz, jx, jy) ((sy : Int) - 1) sz sx 3 lib st

/-
Build driver (source lines 1084-1301).
-/

/-- Compression of the TYPE channel as seen by the driver. -/
inductive ChannelCompression
  | uniform
  | raw
  | other
deriving DecidableEq

/-- Depth of the TYPE channel. -/
inductive ChannelDepth
  | bits8
  | bits16
  | bits32
  | bits64
deriving DecidableEq

/-- VoxelMesherBlocky::Parameters: the mesher configuration guarded by the
parameters lock. -/
structure MesherParams where
  library : Option BakedLibrary
  bake_occlusion : Bool
  baked_occlusion_darkness : ℚ

/-- VoxelMesherBlocky::set_occlusion_darkness (source lines 1094-1097): the
stored parameter is the clamp of the given value into the unit interval. -/
def setOcclusionDarkness (p : MesherParams) (v : ℚ) : MesherParams :=
  { p with baked_occlusion_darkness := clampQ v 0 1 }

/-- VoxelMesherBlocky::get_occlusion_darkness (source lines 1099-1102). -/
def getOcclusionDarkness (p : MesherParams) : ℚ := p.baked_occlusion_darkness

/-- The occlusion darkness a build passes to generate_blocky_mesh (source lines
1137-1140): the stored darkness divided by 3 when occlusion is enabled, else 0. -/
def effectiveOcclusionDarkness (p : MesherParams) : ℚ :=
  if p.bake_occlusion then p.baked_occlusion_darkness / 3 else 0

/-- VoxelMesher::Input as consumed by the blocky build: the decoded TYPE channel
buffer, the channel state, the block size, the LOD index and the collision hint,
plus the mesher parameters snapshot. -/
structure BuildInput where
  params : MesherParams
  compression : ChannelCompression
  channelReadable : Bool
  depth : ChannelDepth
  buffer : List Nat
  blockSize : Nat × Nat × Nat
  lodIndex : Nat
  collisionHint : Bool

/-- VoxelMesher::Output of a build: the scratch per-material arrays after the
pass (for the invariants stated per material), the collision surface, the
packaged surfaces (materials with vertices, with their material index), and the
number of error log lines the build printed. -/
structure BuildResult where
  arraysPerMaterial : List Arrays
  collision : CollisionSurface
  surfaces : List (Arrays × Nat)
  errorLogs : Nat
deriving DecidableEq

/-- LOD scaling of one material's arrays (source lines 1241-1245). -/
def scaleArrays (k : ℚ) (a : Arrays) : Arrays :=
  { a with positions := a.positions.map (V3.smul k) }

/-- LOD scaling of the collision surface (source lines 1246-1250). -/
def scaleCollision (k : ℚ) (c : CollisionSurface) : CollisionSurface :=
  { c with positions := c.positions.map (V3.smul k) }

/-- Packaging of the per-material arrays into output surfaces (source lines
1256-1298): materials with zero vertices are skipped. -/
def packageSurfaces (arrs : List Arrays) (materialCount : Nat) : List (Arrays × Nat) :=
  (List.range materialCount).foldl (fun acc m =>
    let a := arrs.getD m Arrays.empty
    if a.positions.length ≠ 0 then acc ++ [(a, m)] else acc) []

/-- An empty build result with the given number of error logs. -/
def emptyResult (logs : Nat) : BuildResult := ⟨[], ⟨[], []⟩, [], logs⟩

/-- VoxelMesherBlocky::build (source lines 1114-1301). The embedding is a total
function: every input produces a result (the build never throws). Failure
branches in source order: absent library (silent), uniform compression (silent),
any other non-raw compression (one error log), unreadable channel bytes (one
error log), unsupported depth (one error log). On the success path the main
pass runs, then for LOD > 0 the seam pass and the position scaling by
2^lod_index, then packaging. The 8-bit and 16-bit depths differ only in how the
bytes are decoded, which the embedding abstracts by taking the decoded id
buffer as input. -/
def build (inp : BuildInput) : BuildResult :=
  match inp.params.library with
  | none => emptyResult 0
  | some lib =>
    let dk := effectiveOcclusionDarkness inp.params
    if inp.compression = ChannelCompression.uniform then emptyResult 0
    else if inp.compression ≠ ChannelCompression.raw then emptyResult 1
    else if ¬ inp.channelReadable then emptyResult 1
    else
      let materialCount := lib.indexed_materials_count
      if inp.depth = ChannelDepth.bits8 ∨ inp.depth = ChannelDepth.bits16 then
        let st := generateBlockyMesh lib inp.buffer inp.blockSize
          inp.params.bake_occlusion dk inp.collisionHint materialCount
        let st :=
          if 0 < inp.lodIndex then appendSeams inp.buffer inp.blockSize lib st else st
        let lodScale : ℚ := 2 ^ inp.lodIndex
        let arrs :=
          if 0 < inp.lodIndex then st.arrays.map (scaleArrays lodScale) else st.arrays
        let coll :=
          if 0 < inp.lodIndex then scaleCollision lodScale st.collision else st.collision
        ⟨arrs, coll, packageSurfaces arrs materialCount, 0⟩
      else emptyResult 1

/-
Specification-side collision reference for C4: the collision surface described
by the spec's collision-parity property, built by walking the voxels in the
main pass's visit order and appending exactly the surfaces whose baked
collision_enabled flag is set, with positions shifted by the voxel position and
indices rebased by a running offset.
-/

/-- Collision contribution of one side of one voxel, following the spec's
parity property over the same visit order and visibility decisions as the sides
pass. -/
def collMeshSide (lib : BakedLibrary) (buf : List Nat) (rowSize deckSize : Int)
    (collisionOn : Bool) (voxel : BakedModel) (modelSurfaces : List Surface)
    (modelSides : List (List SideSurface)) (surfaceCount : Nat)
    (idx : Int) (pos : V3) (side : Nat) (acc : CollAcc) : CollAcc :=
  if voxel.model.empty_sides_mask.testBit side then acc
  else
    let neighborId := bufAt buf (idx + sideNeighborLut rowSize deckSize side)
    match sideVisibility lib voxel side neighborId (modelSides.getD side []) with
    | none => acc
    | some sideSurfaces =>
      (List.range surfaceCount).foldl
        (fun acc k =>
          collAppend collisionOn (modelSurfaces.getD k Surface.empty).collision_enabled pos
            (sideSurfaces.getD k SideSurface.empty).positions
            (sideSurfaces.getD k SideSurface.empty).indices acc)
        acc

/-- Collision contribution of one voxel of the reference: sides then inner
surfaces, in emission order. -/
def collMeshVoxel (lib : BakedLibrary) (buf : List Nat) (rowSize deckSize : Int)
    (collisionOn : Bool) (x y z : Nat) (acc : CollAcc) : CollAcc :=
  let idx : Int := (y : Int) + (x : Int) * rowSize + (z : Int) * deckSize
  let voxelId := bufAt buf idx
  if voxelId = 0 then acc
  else if ¬ hasModel lib voxelId then acc
  else
    let voxel := modelOf lib voxelId
    let fd : FluidModelData :=
      if voxel.fluid_index ≠ 255 then
        generateFluidModel voxel buf idx 1 rowSize deckSize lib
      else
        ⟨voxel.model.surfaces, voxel.model.sides_surfaces, voxel.model.surface_count⟩
    let pos : V3 := ⟨(x : ℚ) - 1, (y : ℚ) - 1, (z : ℚ) - 1⟩
    let acc := (List.range 6).foldl
      (fun acc side =>
        collMeshSide lib buf rowSize deckSize collisionOn voxel
          fd.surfaces fd.sides fd.surfaceCount idx pos side acc)
      acc
    (List.range fd.surfaceCount).foldl
      (fun acc k =>
        let surface := fd.surfaces.getD k Surface.empty
        if surface.positions.length = 0 then acc
        else collAppend collisionOn surface.collision_enabled pos
          surface.positions surface.indices acc)
      acc

/-- The collision surface the spec's parity property prescribes for a whole
main pass: exactly the collision-enabled surfaces, in voxel-visit order. -/
def collisionReference (lib : BakedLibrary) (buf : List Nat)
    (blockSize : Nat × Nat × Nat) (collisionOn : Bool) : CollAcc :=
  let acc : CollAcc := ⟨[], [], 0⟩
  if blockSize.1 < 2 ∨ blockSize.2.1 < 2 ∨ blockSize.2.2 < 2 then acc
  else
    let rowSize : Int := blockSize.2.1
    let deckSize : Int := blockSize.1 * blockSize.2.1
    (List.range' 1 (blockSize.2.2 - 2)).foldl (fun acc z =>
      (List.range' 1 (blockSize.1 - 2)).foldl (fun acc x =>
        (List.range' 1 (blockSize.2.1 - 2)).foldl (fun acc y =>
          collMeshVoxel lib buf rowSize deckSize collisionOn x y z acc) acc) acc) acc

/-- Positions of material m in a mesh state. -/
def posAt (st : MeshState) (m : Nat) : List V3 := (st.arrays.getD m Arrays.empty).positions

/-- Positions of material m in a build result. -/
def posArr (r : BuildResult) (m : Nat) : List V3 :=
  (r.arraysPerMaterial.getD m Arrays.empty).positions

/-- The main-pass state of a build: generate_blocky_mesh applied to the build's
inputs (the seam pass and the LOD scaling are applied on top of it). -/
def mainPass (inp : BuildInput) (lib : BakedLibrary) : MeshState :=
  generateBlockyMesh lib inp.buffer inp.blockSize inp.params.bake_occlusion
    (effectiveOcclusionDarkness inp.params) inp.collisionHint lib.indexed_materials_count

/-- A mesh transformation that only appends to the per-material position
arrays. -/
def AppendsPos (f : MeshState → MeshState) : Prop :=
  ∀ (st : MeshState) (m : Nat), ∃ e, posAt (f st) m = posAt st m ++ e

/-- Tangent-uniformity of one patch: with b = true the patch carries tangents
of length exactly 4 times its positions, with b = false it carries none. -/
def patchOK (b : Bool) (tl pl : Nat) : Prop := if b then tl = 4 * pl else tl = 0

instance (b : Bool) (tl pl : Nat) : Decidable (patchOK b tl pl) := by
  unfold patchOK
  infer_instance

/-- Every patch of a baked model is tangent-uniform with flag b. -/
def modelTangentsOK (b : Bool) (bm : BakedModel) : Prop :=
  (∀ s ∈ bm.model.surfaces, patchOK b s.tangents.length s.positions.length) ∧
  (∀ sss ∈ bm.model.sides_surfaces, ∀ ss ∈ sss,
    patchOK b ss.tangents.length ss.positions.length) ∧
  (∀ cm ∈ bm.model.cutout_side_surfaces, ∀ pr ∈ cm, ∀ ss ∈ pr.2,
    patchOK b ss.tangents.length ss.positions.length)

/-- Every patch of a library (models and fluid skirt templates) is
tangent-uniform with flag b. -/
def libTangentsOK (b : Bool) (lib : BakedLibrary) : Prop :=
  (∀ bm ∈ lib.models, modelTangentsOK b bm) ∧
  (∀ fl ∈ lib.fluids, ∀ fs ∈ fl.side_surfaces,
    patchOK b fs.tangents.length fs.positions.length)

instance (b : Bool) (bm : BakedModel) : Decidable (modelTangentsOK b bm) := by
  unfold modelTangentsOK
  infer_instance

instance (b : Bool) (lib : BakedLibrary) : Decidable (libTangentsOK b lib) := by
  unfold libTangentsOK
  infer_instance

/-- Per-material tangent invariant of a mesh state. -/
def TangentInv (b : Bool) (st : MeshState) : Prop :=
  ∀ m, patchOK b (st.arrays.getD m Arrays.empty).tangents.length
    (st.arrays.getD m Arrays.empty).positions.length

/-
Concrete test fixtures used by counterexamples and witnesses.
-/

/-- A one-vertex side patch used by the test cube. -/
def testSideSurface : SideSurface := ⟨[⟨0, 0, 0⟩], [⟨0, 0⟩], [0], []⟩

/-- A one-material test model: one surface with collision enabled, a one-vertex
patch on every side, no neighbor culling, no AO contribution, not a fluid. -/
def testCube : BakedModel :=
  ⟨⟨[⟨[], [], [], [], [], 0, true⟩],
    [[testSideSurface], [testSideSurface], [testSideSurface],
     [testSideSurface], [testSideSurface], [testSideSurface]],
    1, 0, [0, 0, 0, 0, 0, 0], [[], [], [], [], [], []]⟩,
   ⟨1, 1, 1, 1⟩, 0, false, false, false, 255, 0⟩

/-- A library with the air model and the test cube, one indexed material, and a
side-pattern table that never reports full coverage. -/
def libOne : BakedLibrary := ⟨[BakedModel.air, testCube], [], 1, fun _ _ => false⟩

/-- 3x3x3 id buffer: an invalid id 7 on the outer NEG_X layer at (0,1,1) and the
test cube at (1,1,1); the library has only 2 models, so 7 is out of range. -/
def bufferInvalidOuter : List Nat :=
  (List.range 27).map (fun i => if i = 10 then 7 else if i = 13 then 1 else 0)

/-- The same buffer with the invalid outer id replaced by AIR. -/
def bufferInvalidOuterAsAir : List Nat :=
  (List.range 27).map (fun i => if i = 13 then 1 else 0)

/-- 3x3x3 id buffer with only an invalid id 7 at the center (1,1,1). -/
def bufferInvalidCenter : List Nat :=
  (List.range 27).map (fun i => if i = 13 then 7 else 0)

/-- First surface of the two-surface test model (material 0, 4-vertex sides). -/
def surfTwoA : Surface := ⟨[], [], [], [], [], 0, true⟩

/-- Second surface of the two-surface test model (material 1, 1-vertex sides). -/
def surfTwoB : Surface := ⟨[], [], [], [], [], 1, true⟩

/-- The side patch belonging to surface 0 of the two-surface model. -/
def sideOfSurfA : SideSurface :=
  ⟨[⟨1, 0, 0⟩, ⟨1, 0, 1⟩, ⟨1, 1, 1⟩, ⟨1, 1, 0⟩],
   [⟨0, 0⟩, ⟨0, 0⟩, ⟨0, 0⟩, ⟨0, 0⟩], [0, 1, 2, 0, 2, 3], []⟩

/-- The side patch belonging to surface 1 of the two-surface model. -/
def sideOfSurfB : SideSurface := ⟨[⟨9, 9, 9⟩], [⟨0, 0⟩], [0], []⟩

/-- A model with two surfaces on two materials; every side carries the pair
(surface-0 patch, surface-1 patch). -/
def modelTwoSurfaces : BakedModel :=
  ⟨⟨[surfTwoA, surfTwoB],
    [[sideOfSurfA, sideOfSurfB], [sideOfSurfA, sideOfSurfB], [sideOfSurfA, sideOfSurfB],
     [sideOfSurfA, sideOfSurfB], [sideOfSurfA, sideOfSurfB], [sideOfSurfA, sideOfSurfB]],
    2, 0, [0, 0, 0, 0, 0, 0], [[], [], [], [], [], []]⟩,
   ⟨1, 1, 1, 1⟩, 0, false, false, false, 255, 0⟩

/-- Library with air, the test cube and the two-surface model; two materials. -/
def libTwoMat : BakedLibrary :=
  ⟨[BakedModel.air, testCube, modelTwoSurfaces], [], 2, fun _ _ => false⟩

/-- 3x3x3 id buffer: a non-air marker on the outer POS_X layer at (2,1,1) and
the two-surface model at (1,1,1); triggers exactly one POS_X seam cell. -/
def bufferSeamPosX : List Nat :=
  (List.range 27).map (fun i => if i = 16 then 1 else if i = 13 then 2 else 0)

/-- 3x3x3 id buffer: the test cube at (1,1,1) and on the outer NEG_X layer at
(0,1,1); triggers exactly one NEG_X seam cell. -/
def bufferSeamNegX : List Nat :=
  (List.range 27).map (fun i => if i = 10 then 1 else if i = 13 then 1 else 0)

/-- Build input without a library. -/
def inputNoLibrary : BuildInput :=
  ⟨⟨none, true, 1 / 2⟩, ChannelCompression.raw, true, ChannelDepth.bits8,
   [], (3, 3, 3), 0, false⟩

/-- Build input for the collision-parity counterexample: LOD 1 with collision,
occlusion off, over bufferSeamNegX. -/
def inputSeamCollision : BuildInput :=
  ⟨⟨some libOne, false, 0⟩, ChannelCompression.raw, true, ChannelDepth.bits8,
   bufferSeamNegX, (3, 3, 3), 1, true⟩

/-- A one-vertex side patch carrying tangents (length 4 = 4 x 1 vertex). -/
def sideWithTangents : SideSurface := ⟨[⟨0, 0, 0⟩], [⟨0, 0⟩], [0], [1, 0, 0, 1]⟩

/-- A one-vertex side patch carrying no tangents. -/
def sideNoTangents : SideSurface := ⟨[⟨0, 0, 0⟩], [⟨0, 0⟩], [0], []⟩

/-- A model with two surfaces on the same material whose side patches disagree
on tangent presence; only side 0 is non-empty (mask 0b111110 = 62). -/
def modelMixedTangents : BakedModel :=
  ⟨⟨[⟨[], [], [], [], [], 0, true⟩, ⟨[], [], [], [], [], 0, true⟩],
    [[sideWithTangents, sideNoTangents], [], [], [], [], []],
    2, 62, [0, 0, 0, 0, 0, 0], [[], [], [], [], [], []]⟩,
   ⟨1, 1, 1, 1⟩, 0, false, false, false, 255, 0⟩

/-- Library with air and the mixed-tangent model, one material. -/
def libMixedTangents : BakedLibrary :=
  ⟨[BakedModel.air, modelMixedTangents], [], 1, fun _ _ => false⟩

/-- 3x3x3 id buffer with only the center voxel set to id 1. -/
def bufferCenterOnly : List Nat :=
  (List.range 27).map (fun i => if i = 13 then 1 else 0)

/-- Build input for the tangent-arity counterexample. -/
def inputMixedTangents : BuildInput :=
  ⟨⟨some libMixedTangents, false, 0⟩, ChannelCompression.raw, true, ChannelDepth.bits8,
   bufferCenterOnly, (3, 3, 3), 0, false⟩

/-
End of definitions translated from the program. Theorems follow.
-/

/-- C7: for every fluid voxel whose top is not covered, the four top-corner
levels are computed from the 9 sampled neighbor levels exactly as corner 0 =
max(fl 1, fl 2, fl 4, fl 5), corner 1 = max(fl 0, fl 1, fl 3, fl 4), corner 2 =
max(fl 3, fl 4, fl 6, fl 7), corner 3 = max(fl 4, fl 5, fl 7, fl 8), and each
corner height equals lerp(BOTTOM_HEIGHT, TOP_HEIGHT, corner level / max_level).
Stated on the two functions the not-covered branch composes
(get_corner_levels_from_fluid_levels, get_corner_heights_from_corner_levels). -/
theorem C7_corner_levels_and_heights :
    (∀ fl : List Nat,
      getCornerLevelsFromFluidLevels fl =
        [listMax [fl.getD 1 0, fl.getD 2 0, fl.getD 4 0, fl.getD 5 0],
         listMax [fl.getD 0 0, fl.getD 1 0, fl.getD 3 0, fl.getD 4 0],
         listMax [fl.getD 3 0, fl.getD 4 0, fl.getD 6 0, fl.getD 7 0],
         listMax [fl.getD 4 0, fl.getD 5 0, fl.getD 7 0, fl.getD 8 0]]) ∧
    (∀ (cl : List Nat) (fluid : BakedFluid),
      getCornerHeightsFromCornerLevels cl fluid =
        [lerp fluid.bottom_height fluid.top_height ((cl.getD 0 0 : ℚ) / (fluid.max_level : ℚ)),
         lerp fluid.bottom_height fluid.top_height ((cl.getD 1 0 : ℚ) / (fluid.max_level : ℚ)),
         lerp fluid.bottom_height fluid.top_height ((cl.getD 2 0 : ℚ) / (fluid.max_level : ℚ)),
         lerp fluid.bottom_height fluid.top_height ((cl.getD 3 0 : ℚ) / (fluid.max_level : ℚ))]) := by
  constructor
  · intro fl
    have h : ∀ a b c d : Nat, max4 a b c d = listMax [a, b, c, d] := by
      intro a b c d
      unfold max4 listMax
      simp only [List.foldr]
      omega
    unfold getCornerLevelsFromFluidLevels
    rw [h, h, h, h]
  · intro cl fluid
    unfold getCornerHeightsFromCornerLevels
    simp only [mul_one_div]

/-- C8: for every 4-tuple of corner levels, the fluid flow state equals the
16-entry table lookup on the 4-bit mask of which corners equal the minimum
corner level (bit 3 for corner 0 down to bit 0 for corner 3), and the mask
values 0000, 0101, 1010 and 1111 yield IDLE. -/
theorem C8_flow_state_table :
    (∀ c0 c1 c2 c3 : Nat,
      getFluidFlowStateFromCornerLevels [c0, c1, c2, c3] =
        minCornersMaskToFlowState.getD (specMinCornersMask [c0, c1, c2, c3]) FlowState.idle) ∧
    minCornersMaskToFlowState.getD 0 FlowState.idle = FlowState.idle ∧
    minCornersMaskToFlowState.getD 5 FlowState.idle = FlowState.idle ∧
    minCornersMaskToFlowState.getD 10 FlowState.idle = FlowState.idle ∧
    minCornersMaskToFlowState.getD 15 FlowState.idle = FlowState.idle := by
  refine ⟨?_, rfl, rfl, rfl, rfl⟩
  intro c0 c1 c2 c3
  unfold getFluidFlowStateFromCornerLevels specMinCornersMask
  simp only [List.getD_cons_zero, List.getD_cons_succ]
  have hm : min4 c0 c1 c2 c3 = min c0 (min c1 (min c2 c3)) := by
    unfold min4; omega
  simp only [hm]
  split_ifs <;> rfl

/-- C10: for any value passed to set_occlusion_darkness the stored parameter is
clamp(value, 0, 1), get_occlusion_darkness then returns a value in the unit
interval, and every subsequent build uses an occlusion darkness (the stored
darkness divided by 3 when occlusion is enabled, 0 otherwise) in the unit
interval. -/
theorem C10_occlusion_darkness_clamped :
    ∀ (p : MesherParams) (v : ℚ),
      (setOcclusionDarkness p v).baked_occlusion_darkness = clampQ v 0 1 ∧
      0 ≤ getOcclusionDarkness (setOcclusionDarkness p v) ∧
      getOcclusionDarkness (setOcclusionDarkness p v) ≤ 1 ∧
      0 ≤ effectiveOcclusionDarkness (setOcclusionDarkness p v) ∧
      effectiveOcclusionDarkness (setOcclusionDarkness p v) ≤ 1 := by
  intro p v
  unfold setOcclusionDarkness getOcclusionDarkness effectiveOcclusionDarkness clampQ
  refine ⟨rfl, ?_, ?_, ?_, ?_⟩ <;> simp only [] <;> split_ifs <;> linarith

theorem getD_set_self {α : Type} (l : List α) (i : Nat) (a d : α) (h : i < l.length) :
    (l.set i a).getD i d = a := by
  simp [List.getD, List.getElem?_set_self, h]

theorem getD_set_ne {α : Type} (l : List α) (i j : Nat) (a d : α) (h : i ≠ j) :
    (l.set i a).getD j d = l.getD j d := by
  simp [List.getD, List.getElem?_set_ne h]

theorem bumpAt_length (l : List Nat) (i : Nat) : (bumpAt l i).length = l.length :=
  List.length_set l i _

theorem getD_bumpAt (l : List Nat) (i c : Nat) (hi : i < l.length) :
    (bumpAt l i).getD c 0 = l.getD c 0 + (if c = i then 1 else 0) := by
  by_cases h : c = i
  · subst h
    simp [bumpAt, List.getD, List.getElem?_set_self, hi]
  · have h2 : i ≠ c := fun he => h he.symm
    simp [bumpAt, List.getD, List.getElem?_set_ne h2, h]

theorem edge_loop_count (ec : Nat → Bool) (es : List Nat) :
    ∀ sc : List Nat, sc.length = 8 →
      (∀ e ∈ es, edgeCorner0 e < 8 ∧ edgeCorner1 e < 8 ∧ edgeCorner0 e ≠ edgeCorner1 e) →
      (es.foldl (fun sc e =>
          if ec e then bumpAt (bumpAt sc (edgeCorner0 e)) (edgeCorner1 e) else sc) sc).length = 8 ∧
      ∀ c, (es.foldl (fun sc e =>
          if ec e then bumpAt (bumpAt sc (edgeCorner0 e)) (edgeCorner1 e) else sc) sc).getD c 0 =
        sc.getD c 0 +
          es.countP (fun e => ec e && (c == edgeCorner0 e || c == edgeCorner1 e)) := by
  induction es with
  | nil => intro sc hlen _; exact ⟨hlen, fun c => by simp⟩
  | cons e es ih =>
    intro sc hlen hes
    have he := hes e (by simp)
    have hes2 : ∀ x ∈ es, edgeCorner0 x < 8 ∧ edgeCorner1 x < 8 ∧ edgeCorner0 x ≠ edgeCorner1 x :=
      fun x hx => hes x (List.mem_cons_of_mem _ hx)
    rcases hb : ec e with _ | _
    · have hstep0 : (if ec e then bumpAt (bumpAt sc (edgeCorner0 e)) (edgeCorner1 e) else sc) = sc := by
        rw [hb]; simp
      obtain ⟨ihl, ihg⟩ := ih sc hlen hes2
      refine ⟨?_, fun c => ?_⟩
      · rw [List.foldl_cons, hstep0]; exact ihl
      · rw [List.foldl_cons, hstep0, List.countP_cons, ihg c]
        simp [hb]
    · have hlen2 : (bumpAt (bumpAt sc (edgeCorner0 e)) (edgeCorner1 e)).length = 8 := by
        rw [bumpAt_length, bumpAt_length]; exact hlen
      have hstep0 : (if ec e then bumpAt (bumpAt sc (edgeCorner0 e)) (edgeCorner1 e) else sc) =
          bumpAt (bumpAt sc (edgeCorner0 e)) (edgeCorner1 e) := by
        rw [hb]; simp
      obtain ⟨ihl, ihg⟩ := ih (bumpAt (bumpAt sc (edgeCorner0 e)) (edgeCorner1 e)) hlen2 hes2
      refine ⟨?_, fun c => ?_⟩
      · rw [List.foldl_cons, hstep0]; exact ihl
      · have hstep : (bumpAt (bumpAt sc (edgeCorner0 e)) (edgeCorner1 e)).getD c 0 =
            sc.getD c 0 + (if (c == edgeCorner0 e || c == edgeCorner1 e) then 1 else 0) := by
          rw [getD_bumpAt _ _ _ (by rw [bumpAt_length]; omega),
              getD_bumpAt _ _ _ (by omega)]
          rcases he with ⟨-, -, hne⟩
          by_cases h0 : c = edgeCorner0 e <;> by_cases h1 : c = edgeCorner1 e <;>
            simp [h0, h1] <;> omega
        rw [List.foldl_cons, hstep0, List.countP_cons, ihg c, hstep]
        by_cases hmem : (c == edgeCorner0 e || c == edgeCorner1 e) = true <;>
          simp [hmem, hb] <;> omega

theorem corner_loop_frame (cc : Nat → Bool) (cs : List Nat) :
    ∀ (sc : List Nat) (c : Nat), c ∉ cs →
      (cs.foldl (fun sc c2 =>
          if sc.getD c2 0 = 2 then sc.set c2 3
          else if cc c2 then bumpAt sc c2 else sc) sc).getD c 0 = sc.getD c 0 ∧
      (cs.foldl (fun sc c2 =>
          if sc.getD c2 0 = 2 then sc.set c2 3
          else if cc c2 then bumpAt sc c2 else sc) sc).length = sc.length := by
  induction cs with
  | nil => intro sc c _; exact ⟨rfl, rfl⟩
  | cons a cs ih =>
    intro sc c hc
    have hca : c ≠ a := fun h => hc (h ▸ List.mem_cons_self a cs)
    have hccs : c ∉ cs := fun h => hc (List.mem_cons_of_mem a h)
    have hac : a ≠ c := fun h => hca h.symm
    obtain ⟨ihg, ihl⟩ := ih (if sc.getD a 0 = 2 then sc.set a 3
      else if cc a then bumpAt sc a else sc) c hccs
    constructor
    · rw [List.foldl_cons, ihg]
      split_ifs <;>
        simp [bumpAt, List.getD, List.getElem?_set_ne hac]
    · rw [List.foldl_cons, ihl]
      split_ifs <;> simp [bumpAt]

theorem corner_loop_getD (cc : Nat → Bool) (cs : List Nat) :
    ∀ (sc : List Nat) (c : Nat), cs.Nodup → c ∈ cs → c < 8 → sc.length = 8 →
      (cs.foldl (fun sc c2 =>
          if sc.getD c2 0 = 2 then sc.set c2 3
          else if cc c2 then bumpAt sc c2 else sc) sc).getD c 0 =
        (if sc.getD c 0 = 2 then 3 else sc.getD c 0 + (if cc c then 1 else 0)) := by
  induction cs with
  | nil => intro sc c _ hc; exact absurd hc (List.not_mem_nil c)
  | cons a cs ih =>
    intro sc c hnd hc hc8 hlen
    rcases List.mem_cons.mp hc with hca | hccs
    · subst hca
      have hnotin : c ∉ cs := (List.nodup_cons.mp hnd).1
      obtain ⟨hg, -⟩ := corner_loop_frame cc cs
        (if sc.getD c 0 = 2 then sc.set c 3 else if cc c then bumpAt sc c else sc) c hnotin
      rw [List.foldl_cons, hg]
      split_ifs with h1 h2
      · simp [List.getD, List.getElem?_set_self, hlen ▸ hc8]
      · rw [getD_bumpAt _ _ _ (by omega)]; simp
      · simp
    · have hac : a ≠ c := by
        intro h
        exact (List.nodup_cons.mp hnd).1 (h ▸ hccs)
      have hstep : (if sc.getD a 0 = 2 then sc.set a 3
          else if cc a then bumpAt sc a else sc).getD c 0 = sc.getD c 0 := by
        split_ifs <;>
          simp [bumpAt, List.getD, List.getElem?_set_ne hac]
      have hlen2 : (if sc.getD a 0 = 2 then sc.set a 3
          else if cc a then bumpAt sc a else sc).length = 8 := by
        split_ifs <;> simp [bumpAt, hlen]
      rw [List.foldl_cons, ih _ c (List.nodup_cons.mp hnd).2 hccs hc8 hlen2, hstep]

theorem cube_table_facts :
    ∀ s < 6, (∀ e ∈ sideEdges s,
        edgeCorner0 e < 8 ∧ edgeCorner1 e < 8 ∧ edgeCorner0 e ≠ edgeCorner1 e) ∧
      (sideCorners s).Nodup ∧ (∀ c ∈ sideCorners s, c < 8) := by decide

theorem computeShadedCorners_characterization (ec cc : Nat → Bool) (side c : Nat)
    (hside : side < 6) (hc : c ∈ sideCorners side) :
    (computeShadedCorners ec cc side).getD c 0 = specShadedCorner ec cc side c := by
  obtain ⟨hedges, hnodup, hcs⟩ := cube_table_facts side hside
  have hlen0 : (List.replicate 8 0).length = 8 := by simp
  obtain ⟨hlen1, hget1⟩ := edge_loop_count ec (sideEdges side) (List.replicate 8 0) hlen0 hedges
  have hc8 := hcs c hc
  have hrep : (List.replicate 8 (0 : Nat)).getD c 0 = 0 := by
    interval_cases c <;> rfl
  unfold computeShadedCorners specShadedCorner contributingEdgeCount
  rw [corner_loop_getD cc (sideCorners side) _ c hnodup hc (hcs c hc) hlen1, hget1 c, hrep]
  simp only [Nat.zero_add]

theorem shade_loop_eq_max (dk : ℚ) (hdk : 0 ≤ dk) (sc : List Nat) (v : V3) :
    ∀ (cs : List Nat) (acc : ℚ), 0 ≤ acc →
      cs.foldl (fun shade corner =>
          if sc.getD corner 0 ≠ 0 then
            let s := dk * ((sc.getD corner 0 : Nat) : ℚ)
            let k := 1 - distSq (cornerPosition corner) v
            let k := if k < 0 then 0 else k
            let s := s * k
            if s > shade then s else shade
          else shade) acc =
      List.foldl max acc (cs.map (fun corner =>
        dk * ((sc.getD corner 0 : Nat) : ℚ) * max 0 (1 - distSq (cornerPosition corner) v))) := by
  intro cs
  induction cs with
  | nil => intro acc _; rfl
  | cons a cs ih =>
    intro acc hacc
    have hterm : (0 : ℚ) ≤ dk * ((sc.getD a 0 : Nat) : ℚ) * max 0 (1 - distSq (cornerPosition a) v) := by
      apply mul_nonneg (mul_nonneg hdk (by positivity)) (le_max_left 0 _)
    have hstep : (if sc.getD a 0 ≠ 0 then
        let s := dk * ((sc.getD a 0 : Nat) : ℚ)
        let k := 1 - distSq (cornerPosition a) v
        let k := if k < 0 then 0 else k
        let s := s * k
        if s > acc then s else acc
        else acc) =
        max acc (dk * ((sc.getD a 0 : Nat) : ℚ) * max 0 (1 - distSq (cornerPosition a) v)) := by
      by_cases hz : sc.getD a 0 = 0
      · rw [if_neg (not_not_intro hz)]
        simp only [hz, Nat.cast_zero, mul_zero, zero_mul]
        exact (max_eq_left hacc).symm
      · rw [if_pos hz]
        have hk : (if (1 - distSq (cornerPosition a) v) < 0 then (0 : ℚ)
            else 1 - distSq (cornerPosition a) v) = max 0 (1 - distSq (cornerPosition a) v) := by
          rcases lt_or_le (1 - distSq (cornerPosition a) v) 0 with h | h
          · rw [if_pos h, max_eq_left h.le]
          · rw [if_neg (not_lt.mpr h), max_eq_right h]
        show (if dk * ((sc.getD a 0 : Nat) : ℚ) *
            (if (1 - distSq (cornerPosition a) v) < 0 then (0 : ℚ)
              else 1 - distSq (cornerPosition a) v) > acc then
            dk * ((sc.getD a 0 : Nat) : ℚ) *
              (if (1 - distSq (cornerPosition a) v) < 0 then (0 : ℚ)
                else 1 - distSq (cornerPosition a) v)
          else acc) = _
        rw [hk]
        rcases le_or_lt (dk * ((sc.getD a 0 : Nat) : ℚ) * max 0 (1 - distSq (cornerPosition a) v)) acc with h | h
        · rw [max_eq_left h, if_neg (not_lt.mpr h)]
        · rw [max_eq_right h.le, if_pos h]
    rw [List.foldl_cons, List.map_cons, List.foldl_cons, hstep]
    exact ih _ (le_trans hacc (le_max_left _ _))

theorem shadeForVertex_eq_specShade (dk : ℚ) (hdk : 0 ≤ dk) (sc : List Nat)
    (side : Nat) (v : V3) :
    shadeForVertex dk sc side v = specShade dk sc side v := by
  unfold shadeForVertex specShade
  exact shade_loop_eq_max dk hdk sc v (sideCorners side) 0 le_rfl

/-- C6: for every visible face with occlusion baking enabled, each contributing
edge-adjacent neighbor of the side (ids outside the model table count as
contributing) increments both corners of its edge; each side corner at exactly
2 saturates to 3 and is otherwise incremented when its corner-diagonal neighbor
contributes; each emitted vertex gets shade = max over the side's 4 corners of
d * count * max(0, 1 - squared distance from corner to vertex), only the
distance term being clamped at 0, and its color is (1 - shade) times the model
color channels (alpha scaled by 1). -/
theorem C6_ambient_occlusion :
    (∀ (lib : BakedLibrary) (id : Nat), lib.models.length ≤ id →
      contributesToAo lib id = true) ∧
    (∀ (ec cc : Nat → Bool) (side c : Nat), side < 6 → c ∈ sideCorners side →
      (computeShadedCorners ec cc side).getD c 0 = specShadedCorner ec cc side c) ∧
    (∀ (dk : ℚ) (sc : List Nat) (side : Nat) (v : V3), 0 ≤ dk →
      shadeForVertex dk sc side v = specShade dk sc side v) ∧
    (∀ (dk : ℚ) (sc : List Nat) (side : Nat) (pos : V3) (modulate : Col)
        (collisionOn : Bool) (surface : Surface) (ss : SideSurface) (st : MeshState),
      0 ≤ dk → surface.material_id < st.arrays.length →
      ((emitSideSurface true dk sc side pos modulate collisionOn surface ss st).arrays.getD
          surface.material_id Arrays.empty).colors =
        (st.arrays.getD surface.material_id Arrays.empty).colors ++
          ss.positions.map (fun v =>
            shadedVertexColor (specShade dk sc side v) modulate)) ∧
    (∀ (shade : ℚ) (modulate : Col),
      shadedVertexColor shade modulate =
        ⟨(1 - shade) * modulate.r, (1 - shade) * modulate.g,
         (1 - shade) * modulate.b, 1 * modulate.a⟩) := by
  refine ⟨?_, ?_, ?_, ?_, fun _ _ => rfl⟩
  · intro lib id h
    unfold contributesToAo
    rw [if_neg (by omega)]
  · intro ec cc side c hside hc
    exact computeShadedCorners_characterization ec cc side c hside hc
  · intro dk sc side v hdk
    exact shadeForVertex_eq_specShade dk hdk sc side v
  · intro dk sc side pos modulate collisionOn surface ss st hdk hm
    unfold emitSideSurface
    rw [getD_set_self _ _ _ _ hm]
    show ((st.arrays.getD surface.material_id Arrays.empty).colors ++
        (if (true : Bool) then ss.positions.map (fun v =>
          shadedVertexColor (shadeForVertex dk sc side v) modulate)
         else List.replicate ss.positions.length modulate)) = _
    rw [if_pos rfl]
    congr 1
    apply List.map_congr_left
    intro v _
    rw [shadeForVertex_eq_specShade dk hdk sc side v]

/-- Witness for C6 at concrete inputs. -/
theorem C6_ambient_occlusion_witness :
    (computeShadedCorners (fun _ => true) (fun _ => true) 0).getD 3 0 =
      specShadedCorner (fun _ => true) (fun _ => true) 0 3 ∧
    shadeForVertex (1 / 3) [3, 3, 3, 3, 3, 3, 3, 3] 0 ⟨1, 0, 0⟩ =
      specShade (1 / 3) [3, 3, 3, 3, 3, 3, 3, 3] 0 ⟨1, 0, 0⟩ :=
  ⟨C6_ambient_occlusion.2.1 (fun _ => true) (fun _ => true) 0 3 (by decide) (by decide),
   C6_ambient_occlusion.2.2.1 (1 / 3) [3, 3, 3, 3, 3, 3, 3, 3] 0 ⟨1, 0, 0⟩ (by norm_num)⟩

/-- C2: the build entry point is a total function of its input (the embedding
never fails to return, mirroring that the source never throws across the build
boundary), and each failure input returns the empty output with the stated
number of log lines: absent library silent, uniform TYPE channel silent, any
other non-raw compression one error log, unreadable channel bytes one error
log, unsupported depth one error log. -/
theorem C2_build_failure_paths :
    ∀ inp : BuildInput,
      (inp.params.library = none → build inp = emptyResult 0) ∧
      (inp.compression = ChannelCompression.uniform → build inp = emptyResult 0) ∧
      (inp.compression = ChannelCompression.other →
        ∀ lib, inp.params.library = some lib → build inp = emptyResult 1) ∧
      (inp.channelReadable = false → inp.compression = ChannelCompression.raw →
        ∀ lib, inp.params.library = some lib → build inp = emptyResult 1) ∧
      ((inp.depth = ChannelDepth.bits32 ∨ inp.depth = ChannelDepth.bits64) →
        inp.compression = ChannelCompression.raw → inp.channelReadable = true →
        ∀ lib, inp.params.library = some lib → build inp = emptyResult 1) := by
  intro inp
  refine ⟨?_, ?_, ?_, ?_, ?_⟩
  · intro h
    unfold build
    rw [h]
  · intro h
    unfold build
    cases hl : inp.params.library with
    | none => rfl
    | some lib =>
      rw [h]
      rfl
  · intro h lib hl
    unfold build
    rw [hl, h]
    rfl
  · intro h hc lib hl
    unfold build
    rw [hl, hc, h]
    rfl
  · intro hd hc hr lib hl
    unfold build
    rcases hd with hd | hd <;> rw [hl, hc, hr, hd] <;> rfl

/-- Witness for C2: the build with no library returns the empty result. -/
theorem C2_build_failure_paths_witness : build inputNoLibrary = emptyResult 0 :=
  (C2_build_failure_paths inputNoLibrary).1 rfl

/-- C1, amended: in the main meshing pass a voxel id outside the model table is
treated as air: such a voxel produces no geometry at all, and a neighbor with
such an id never occludes or cuts a face (the face is visible with its default
side surfaces). (In the LOD seam pass, by contrast, ids are compared only
against AIR_ID = 0, so an invalid id counts as non-air there; see the
counterexample.) -/
theorem C1_invalid_ids_are_air_in_main_pass :
    (∀ (lib : BakedLibrary) (buf : List Nat) (rowSize deckSize : Int)
        (bakeOcclusion : Bool) (dk : ℚ) (collisionOn : Bool) (x y z : Nat)
        (st : MeshState),
      ¬ hasModel lib (bufAt buf ((y : Int) + (x : Int) * rowSize + (z : Int) * deckSize)) →
      meshVoxel lib buf rowSize deckSize bakeOcclusion dk collisionOn x y z st = st) ∧
    (∀ (lib : BakedLibrary) (voxel : BakedModel) (side neighborId : Nat)
        (dflt : List SideSurface),
      lib.models.length ≤ neighborId →
      sideVisibility lib voxel side neighborId dflt = some dflt) := by
  constructor
  · intro lib buf rowSize deckSize bakeOcclusion dk collisionOn x y z st h
    show (if bufAt buf ((y : Int) + (x : Int) * rowSize + (z : Int) * deckSize) = 0 then st
      else if ¬ hasModel lib (bufAt buf ((y : Int) + (x : Int) * rowSize + (z : Int) * deckSize)) then st
      else _) = st
    by_cases h0 : bufAt buf ((y : Int) + (x : Int) * rowSize + (z : Int) * deckSize) = 0
    · rw [if_pos h0]
    · rw [if_neg h0, if_pos h]
  · intro lib voxel side neighborId dflt h
    unfold sideVisibility
    rw [if_neg (by omega)]

/-- Witness for C1: at a concrete buffer whose center voxel id 7 is outside the
2-model library, the main pass leaves the state unchanged, and the visibility
decision for an invalid neighbor id is visible-with-default. -/
theorem C1_invalid_ids_main_pass_witness :
    meshVoxel libOne bufferInvalidCenter 3 9 false 0 false 1 1 1 (emptyMeshState 1) =
      emptyMeshState 1 ∧
    sideVisibility libOne BakedModel.air 0 7 [] = some [] :=
  ⟨C1_invalid_ids_are_air_in_main_pass.1 libOne bufferInvalidCenter 3 9 false 0 false 1 1 1
      (emptyMeshState 1) (by decide),
   C1_invalid_ids_are_air_in_main_pass.2 libOne BakedModel.air 0 7 [] (by decide)⟩

/-- Counterexample to C1 as stated: in the LOD seam pass an invalid voxel id is
not treated as air. With an invalid id 7 on the outer NEG_X layer the seam pass
emits geometry; replacing that id with AIR emits none, so the two runs differ. -/
theorem C1_seam_pass_counterexample :
    ((appendSeams bufferInvalidOuter (3, 3, 3) libOne (emptyMeshState 1)).arrays.getD 0
        Arrays.empty).positions.length = 1 ∧
      ((appendSeams bufferInvalidOuterAsAir (3, 3, 3) libOne (emptyMeshState 1)).arrays.getD 0
        Arrays.empty).positions.length = 0 := by
  constructor <;> decide

/-- C3 (code bug): at a concrete POS_X seam over a model with two surfaces, the
seam pass emits, for both surfaces, the side patch of surface 1 (the source
indexes the per-surface side-surface array with the side number, line 978,
where the main sides pass uses the surface index, line 681). The claim's
behavior would give material 0 the 4-vertex patch of surface 0; the code gives
both materials the 1-vertex patch of surface 1. -/
theorem C3_seam_side_surface_index_bug :
    ((appendSeams bufferSeamPosX (3, 3, 3) libTwoMat (emptyMeshState 2)).arrays.getD 0
        Arrays.empty).positions.length = 1 ∧
    ((appendSeams bufferSeamPosX (3, 3, 3) libTwoMat (emptyMeshState 2)).arrays.getD 1
        Arrays.empty).positions.length = 1 ∧
    sideOfSurfA.positions.length = 4 ∧ sideOfSurfB.positions.length = 1 := by
  refine ⟨?_, ?_, ?_, ?_⟩ <;> decide

/-- Counterexample to C4 as stated: with collision_hint = true and lod_index = 1
on a buffer that triggers one NEG_X seam cell, every emitted surface has
collision enabled, yet the per-material arrays hold 7 positions while the
collision surface holds only 6: seam geometry is never mirrored into the
collision surface. -/
theorem C4_seam_collision_counterexample :
    ((build inputSeamCollision).arraysPerMaterial.getD 0 Arrays.empty).positions.length = 7 ∧
    (build inputSeamCollision).collision.positions.length = 6 ∧
    (∀ surf ∈ (modelOf libOne 1).model.surfaces, surf.collision_enabled = true) := by
  decide

theorem foldl_proj {S T α : Type} (proj : S → T) (F : S → α → S) (G : T → α → T)
    (h : ∀ s a, proj (F s a) = G (proj s) a) :
    ∀ (l : List α) (s : S), proj (l.foldl F s) = l.foldl G (proj s) := by
  intro l
  induction l with
  | nil => intro s; rfl
  | cons a l ih =>
    intro s
    rw [List.foldl_cons, List.foldl_cons, ih, h]

theorem foldl_fixed {T α : Type} (l : List α) (t : T) :
    l.foldl (fun t _ => t) t = t := by
  induction l with
  | nil => rfl
  | cons a l ih => rw [List.foldl_cons]; exact ih

theorem collAcc_emitSideSurface (bakeOcclusion : Bool) (dk : ℚ) (shadedCorner : List Nat)
    (side : Nat) (pos : V3) (modulate : Col) (collisionOn : Bool)
    (surface : Surface) (ss : SideSurface) (st : MeshState) :
    (emitSideSurface bakeOcclusion dk shadedCorner side pos modulate collisionOn
        surface ss st).collAcc =
      collAppend collisionOn surface.collision_enabled pos ss.positions ss.indices st.collAcc := by
  unfold emitSideSurface MeshState.collAcc
  cases collAppend collisionOn surface.collision_enabled pos ss.positions ss.indices
    ⟨st.collision.positions, st.collision.indices, st.collisionIndexOffset⟩
  rfl

theorem collAcc_emitInner (collisionOn : Bool) (modulate : Col) (pos : V3)
    (surface : Surface) (st : MeshState) :
    (emitInner collisionOn modulate pos surface st).collAcc =
      (if surface.positions.length = 0 then st.collAcc
       else collAppend collisionOn surface.collision_enabled pos
         surface.positions surface.indices st.collAcc) := by
  unfold emitInner
  by_cases h : surface.positions.length = 0
  · rw [if_pos h, if_pos h]
  · rw [if_neg h, if_neg h]
    unfold MeshState.collAcc
    cases collAppend collisionOn surface.collision_enabled pos surface.positions surface.indices
      ⟨st.collision.positions, st.collision.indices, st.collisionIndexOffset⟩
    rfl

theorem collAcc_meshSide (lib : BakedLibrary) (buf : List Nat) (rowSize deckSize : Int)
    (bakeOcclusion : Bool) (dk : ℚ) (collisionOn : Bool)
    (voxel : BakedModel) (modelSurfaces : List Surface)
    (modelSides : List (List SideSurface)) (surfaceCount : Nat)
    (idx : Int) (pos : V3) (side : Nat) (st : MeshState) :
    (meshSide lib buf rowSize deckSize bakeOcclusion dk collisionOn voxel
        modelSurfaces modelSides surfaceCount idx pos side st).collAcc =
      collMeshSide lib buf rowSize deckSize collisionOn voxel
        modelSurfaces modelSides surfaceCount idx pos side st.collAcc := by
  simp only [meshSide, collMeshSide]
  by_cases hmask : voxel.model.empty_sides_mask.testBit side
  · rw [if_pos hmask, if_pos hmask]
  · rw [if_neg hmask, if_neg hmask]
    cases hvis : sideVisibility lib voxel side
      (bufAt buf (idx + sideNeighborLut rowSize deckSize side)) (modelSides.getD side []) with
    | none => rfl
    | some sss =>
      apply foldl_proj MeshState.collAcc
      intro s k
      exact collAcc_emitSideSurface _ _ _ _ _ _ _ _ _ s

theorem collAcc_two_folds {α β : Type} (F1 : MeshState → α → MeshState)
    (G1 : CollAcc → α → CollAcc) (F2 : MeshState → β → MeshState)
    (G2 : CollAcc → β → CollAcc)
    (h1 : ∀ s a, (F1 s a).collAcc = G1 s.collAcc a)
    (h2 : ∀ s b, (F2 s b).collAcc = G2 s.collAcc b)
    (l1 : List α) (l2 : List β) (st : MeshState) :
    (l2.foldl F2 (l1.foldl F1 st)).collAcc = l2.foldl G2 (l1.foldl G1 st.collAcc) := by
  rw [foldl_proj MeshState.collAcc F2 G2 h2, foldl_proj MeshState.collAcc F1 G1 h1]

theorem collAcc_meshVoxel (lib : BakedLibrary) (buf : List Nat) (rowSize deckSize : Int)
    (bakeOcclusion : Bool) (dk : ℚ) (collisionOn : Bool) (x y z : Nat) (st : MeshState) :
    (meshVoxel lib buf rowSize deckSize bakeOcclusion dk collisionOn x y z st).collAcc =
      collMeshVoxel lib buf rowSize deckSize collisionOn x y z st.collAcc := by
  simp only [meshVoxel, collMeshVoxel]
  by_cases h0 : bufAt buf ((y : Int) + (x : Int) * rowSize + (z : Int) * deckSize) = 0
  · rw [if_pos h0, if_pos h0]
  · rw [if_neg h0, if_neg h0]
    by_cases h1 : ¬ hasModel lib (bufAt buf ((y : Int) + (x : Int) * rowSize + (z : Int) * deckSize))
    · rw [if_pos h1, if_pos h1]
    · rw [if_neg h1, if_neg h1]
      exact collAcc_two_folds _ _ _ _
        (fun s side => collAcc_meshSide _ _ _ _ _ _ _ _ _ _ _ _ _ side s)
        (fun s k => collAcc_emitInner _ _ _ _ s) _ _ st

theorem collAcc_emptyMeshState (n : Nat) : (emptyMeshState n).collAcc = ⟨[], [], 0⟩ := rfl

theorem collAcc_generateBlockyMesh (lib : BakedLibrary) (buf : List Nat)
    (blockSize : Nat × Nat × Nat) (bakeOcclusion : Bool) (dk : ℚ)
    (collisionOn : Bool) (materialCount : Nat) :
    (generateBlockyMesh lib buf blockSize bakeOcclusion dk collisionOn materialCount).collAcc =
      collisionReference lib buf blockSize collisionOn := by
  simp only [generateBlockyMesh, collisionReference]
  by_cases hsz : blockSize.1 < 2 ∨ blockSize.2.1 < 2 ∨ blockSize.2.2 < 2
  · rw [if_pos hsz, if_pos hsz]
    rfl
  · rw [if_neg hsz, if_neg hsz]
    apply foldl_proj MeshState.collAcc
    intro s z
    apply foldl_proj MeshState.collAcc
    intro s x
    apply foldl_proj MeshState.collAcc
    intro s y
    exact collAcc_meshVoxel _ _ _ _ _ _ _ _ _ _ s

theorem collAcc_seamCell (buf : List Nat) (jump : Int × Int × Int) (z : Int)
    (side : Nat) (lib : BakedLibrary) (x y : Nat) (st : MeshState) :
    (seamCell buf jump z side lib x y st).collAcc = st.collAcc := by
  simp only [seamCell]
  by_cases h0 : bufAt buf ((x : Int) * jump.1 + (y : Int) * jump.2.1 + z * jump.2.2) = 0
  · rw [if_pos h0]
  · rw [if_neg h0]
    by_cases h1 : bufAt buf ((x : Int) * jump.1 + (y : Int) * jump.2.1 + z * jump.2.2 - jump.1) ≠ 0 ∧
        bufAt buf ((x : Int) * jump.1 + (y : Int) * jump.2.1 + z * jump.2.2 + jump.1) ≠ 0 ∧
        bufAt buf ((x : Int) * jump.1 + (y : Int) * jump.2.1 + z * jump.2.2 - jump.2.1) ≠ 0 ∧
        bufAt buf ((x : Int) * jump.1 + (y : Int) * jump.2.1 + z * jump.2.2 + jump.2.1) ≠ 0
    · rw [if_pos h1]
    · rw [if_neg h1]
      by_cases h2 : bufAt buf ((x : Int) * jump.1 + (y : Int) * jump.2.1 + z * jump.2.2 -
          getSideSign side * jump.2.2) = 0
      · rw [if_pos h2]
      · rw [if_neg h2]
        refine (foldl_proj MeshState.collAcc _ (fun t _ => t)
          (fun s k => ?_) _ st).trans (foldl_fixed _ _)
        rfl

theorem collAcc_appendSideSeams (buf : List Nat) (jump : Int × Int × Int) (z : Int)
    (sizeX sizeY : Nat) (side : Nat) (lib : BakedLibrary) (st : MeshState) :
    (appendSideSeams buf jump z sizeX sizeY side lib st).collAcc = st.collAcc := by
  simp only [appendSideSeams]
  refine (foldl_proj MeshState.collAcc _ (fun t _ => t) (fun s x => ?_) _ st).trans
    (foldl_fixed _ _)
  exact (foldl_proj MeshState.collAcc _ (fun t _ => t)
    (fun s2 y => collAcc_seamCell _ _ _ _ _ _ y s2) _ s).trans (foldl_fixed _ _)

theorem collAcc_appendSeams (buf : List Nat) (blockSize : Nat × Nat × Nat)
    (lib : BakedLibrary) (st : MeshState) :
    (appendSeams buf blockSize lib st).collAcc = st.collAcc := by
  unfold appendSeams
  rw [collAcc_appendSideSeams, collAcc_appendSideSeams, collAcc_appendSideSeams,
    collAcc_appendSideSeams, collAcc_appendSideSeams, collAcc_appendSideSeams]

theorem collision_eq_of_collAcc (s1 s2 : MeshState) (h : s1.collAcc = s2.collAcc) :
    s1.collision = s2.collision := by
  have hp : s1.collision.positions = s2.collision.positions := congrArg CollAcc.positions h
  have hi : s1.collision.indices = s2.collision.indices := congrArg CollAcc.indices h
  calc s1.collision = ⟨s1.collision.positions, s1.collision.indices⟩ := rfl
    _ = ⟨s2.collision.positions, s2.collision.indices⟩ := by rw [hp, hi]
    _ = s2.collision := rfl

theorem map_smul_one (l : List V3) : l.map (V3.smul 1) = l := by
  induction l with
  | nil => rfl
  | cons a l ih =>
    rw [List.map_cons, ih]
    cases a
    simp [V3.smul]

/-- C4, amended: with collision_hint = true the collision surface of a
successful build contains exactly the positions and rebased indices of the
main-pass surfaces whose baked collision_enabled flag is set, in voxel-visit
order (the collisionReference fold), with positions scaled by 2^lod_index;
seam geometry emitted for lod_index > 0 is never mirrored into the collision
surface. -/
theorem C4_collision_parity_amended :
    ∀ (inp : BuildInput) (lib : BakedLibrary),
      inp.params.library = some lib →
      inp.compression = ChannelCompression.raw →
      inp.channelReadable = true →
      (inp.depth = ChannelDepth.bits8 ∨ inp.depth = ChannelDepth.bits16) →
      (build inp).collision.positions =
        (collisionReference lib inp.buffer inp.blockSize inp.collisionHint).positions.map
          (V3.smul (2 ^ inp.lodIndex)) ∧
      (build inp).collision.indices =
        (collisionReference lib inp.buffer inp.blockSize inp.collisionHint).indices := by
  intro inp lib hl hc hr hd
  simp only [build, hl, hc, hr]
  rw [if_neg (by decide : ¬ (ChannelCompression.raw = ChannelCompression.uniform)),
    if_neg (by decide : ¬ (ChannelCompression.raw ≠ ChannelCompression.raw)),
    if_neg (not_not_intro trivial), if_pos hd]
  set g : MeshState := generateBlockyMesh lib inp.buffer inp.blockSize
    inp.params.bake_occlusion (effectiveOcclusionDarkness inp.params) inp.collisionHint
    lib.indexed_materials_count with hg
  have hgen : g.collAcc = collisionReference lib inp.buffer inp.blockSize inp.collisionHint := by
    rw [hg]
    exact collAcc_generateBlockyMesh lib inp.buffer inp.blockSize
      inp.params.bake_occlusion (effectiveOcclusionDarkness inp.params) inp.collisionHint
      lib.indexed_materials_count
  have hrefp : g.collision.positions =
      (collisionReference lib inp.buffer inp.blockSize inp.collisionHint).positions :=
    congrArg CollAcc.positions hgen
  have hrefi : g.collision.indices =
      (collisionReference lib inp.buffer inp.blockSize inp.collisionHint).indices :=
    congrArg CollAcc.indices hgen
  by_cases hlod : 0 < inp.lodIndex
  · simp only [if_pos hlod]
    have hseam : (appendSeams inp.buffer inp.blockSize lib g).collision = g.collision :=
      collision_eq_of_collAcc _ _ (collAcc_appendSeams inp.buffer inp.blockSize lib g)
    constructor
    · show ((appendSeams inp.buffer inp.blockSize lib g).collision.positions).map
        (V3.smul (2 ^ inp.lodIndex)) = _
      rw [hseam, hrefp]
    · show (appendSeams inp.buffer inp.blockSize lib g).collision.indices = _
      rw [hseam, hrefi]
  · simp only [if_neg hlod]
    have hl0 : inp.lodIndex = 0 := by omega
    rw [hl0, pow_zero]
    constructor
    · show g.collision.positions = _
      rw [hrefp, map_smul_one]
    · show g.collision.indices = _
      rw [hrefi]

/-- Witness for the amended C4 at a concrete LOD-1 collision build. -/
theorem C4_collision_parity_amended_witness :
    (build inputSeamCollision).collision.positions =
      (collisionReference libOne bufferSeamNegX (3, 3, 3) true).positions.map
        (V3.smul (2 ^ 1)) ∧
    (build inputSeamCollision).collision.indices =
      (collisionReference libOne bufferSeamNegX (3, 3, 3) true).indices :=
  C4_collision_parity_amended inputSeamCollision libOne rfl rfl rfl (Or.inl rfl)

theorem getD_set_append (l : List Arrays) (mat : Nat) (arr2 : Arrays) (d : List V3)
    (h : arr2.positions = (l.getD mat Arrays.empty).positions ++ d) (m : Nat) :
    ∃ e, ((l.set mat arr2).getD m Arrays.empty).positions =
      (l.getD m Arrays.empty).positions ++ e := by
  by_cases hm : m = mat
  · subst hm
    by_cases hlt : m < l.length
    · exact ⟨d, by rw [getD_set_self _ _ _ _ hlt, h]⟩
    · refine ⟨[], ?_⟩
      rw [List.set_eq_of_length_le (by omega), List.append_nil]
  · exact ⟨[], by
      rw [getD_set_ne _ _ _ _ _ (fun hh => hm hh.symm), List.append_nil]⟩

theorem posAt_set_state (st : MeshState) (mat : Nat) (arr2 : Arrays)
    (c : CollisionSurface) (io : List Int) (cio : Int) (d : List V3)
    (h : arr2.positions = (st.arrays.getD mat Arrays.empty).positions ++ d) (m : Nat) :
    ∃ e, posAt ⟨st.arrays.set mat arr2, c, io, cio⟩ m = posAt st m ++ e :=
  getD_set_append st.arrays mat arr2 d h m

theorem appendsPos_foldl {α : Type} (F : MeshState → α → MeshState)
    (h : ∀ a, AppendsPos (fun st => F st a)) :
    ∀ l : List α, AppendsPos (fun st => l.foldl F st) := by
  intro l
  induction l with
  | nil => exact fun st m => ⟨[], (List.append_nil _).symm⟩
  | cons a l ih =>
    intro st m
    obtain ⟨e1, he1⟩ := h a st m
    obtain ⟨e2, he2⟩ := ih (F st a) m
    have he1b : posAt (F st a) m = posAt st m ++ e1 := he1
    have he2b : posAt (List.foldl F (F st a) l) m = posAt (F st a) m ++ e2 := he2
    refine ⟨e1 ++ e2, ?_⟩
    show posAt (List.foldl F (F st a) l) m = posAt st m ++ (e1 ++ e2)
    rw [he2b, he1b, List.append_assoc]

theorem appendsPos_seamCell (buf : List Nat) (jump : Int × Int × Int) (z : Int)
    (side : Nat) (lib : BakedLibrary) (x y : Nat) :
    AppendsPos (seamCell buf jump z side lib x y) := by
  intro st m
  simp only [seamCell]
  by_cases h0 : bufAt buf ((x : Int) * jump.1 + (y : Int) * jump.2.1 + z * jump.2.2) = 0
  · rw [if_pos h0]
    exact ⟨[], (List.append_nil _).symm⟩
  · rw [if_neg h0]
    by_cases h1 : bufAt buf ((x : Int) * jump.1 + (y : Int) * jump.2.1 + z * jump.2.2 - jump.1) ≠ 0 ∧
        bufAt buf ((x : Int) * jump.1 + (y : Int) * jump.2.1 + z * jump.2.2 + jump.1) ≠ 0 ∧
        bufAt buf ((x : Int) * jump.1 + (y : Int) * jump.2.1 + z * jump.2.2 - jump.2.1) ≠ 0 ∧
        bufAt buf ((x : Int) * jump.1 + (y : Int) * jump.2.1 + z * jump.2.2 + jump.2.1) ≠ 0
    · rw [if_pos h1]
      exact ⟨[], (List.append_nil _).symm⟩
    · rw [if_neg h1]
      by_cases h2 : bufAt buf ((x : Int) * jump.1 + (y : Int) * jump.2.1 + z * jump.2.2 -
          getSideSign side * jump.2.2) = 0
      · rw [if_pos h2]
        exact ⟨[], (List.append_nil _).symm⟩
      · rw [if_neg h2]
        refine appendsPos_foldl _ (fun k st2 m2 => ?_) _ st m
        exact posAt_set_state st2 _ _ _ _ _ _ rfl m2

theorem appendsPos_appendSideSeams (buf : List Nat) (jump : Int × Int × Int) (z : Int)
    (sizeX sizeY : Nat) (side : Nat) (lib : BakedLibrary) :
    AppendsPos (appendSideSeams buf jump z sizeX sizeY side lib) := by
  have h := fun x => appendsPos_foldl _
    (fun y => appendsPos_seamCell buf jump z side lib x y) (List.range' 1 (sizeY - 2))
  exact appendsPos_foldl _ h (List.range' 1 (sizeX - 2))

theorem appendsPos_comp {f g : MeshState → MeshState} (hf : AppendsPos f)
    (hg : AppendsPos g) : AppendsPos (fun st => g (f st)) := by
  intro st m
  obtain ⟨e1, he1⟩ := hf st m
  obtain ⟨e2, he2⟩ := hg (f st) m
  exact ⟨e1 ++ e2, by rw [he2, he1, List.append_assoc]⟩

theorem appendsPos_appendSeams (buf : List Nat) (blockSize : Nat × Nat × Nat)
    (lib : BakedLibrary) : AppendsPos (appendSeams buf blockSize lib) := by
  have h1 := appendsPos_comp
    (appendsPos_comp
      (appendsPos_comp
        (appendsPos_comp
          (appendsPos_comp
            (appendsPos_appendSideSeams buf (blockSize.2.1, 1, blockSize.1 * blockSize.2.1) 0
              blockSize.1 blockSize.2.1 4 lib)
            (appendsPos_appendSideSeams buf (blockSize.2.1, 1, blockSize.1 * blockSize.2.1)
              ((blockSize.2.2 : Int) - 1) blockSize.1 blockSize.2.1 5 lib))
          (appendsPos_appendSideSeams buf (blockSize.1 * blockSize.2.1, 1, blockSize.2.1) 0
            blockSize.2.2 blockSize.2.1 0 lib))
        (appendsPos_appendSideSeams buf (blockSize.1 * blockSize.2.1, 1, blockSize.2.1)
          ((blockSize.1 : Int) - 1) blockSize.2.2 blockSize.2.1 1 lib))
      (appendsPos_appendSideSeams buf (blockSize.1 * blockSize.2.1, blockSize.2.1, 1) 0
        blockSize.2.2 blockSize.1 2 lib))
    (appendsPos_appendSideSeams buf (blockSize.1 * blockSize.2.1, blockSize.2.1, 1)
      ((blockSize.2.1 : Int) - 1) blockSize.2.2 blockSize.1 3 lib)
  intro st m
  exact h1 st m

theorem getD_map_scaleArrays (k : ℚ) (l : List Arrays) (m : Nat) :
    (l.map (scaleArrays k)).getD m Arrays.empty = scaleArrays k (l.getD m Arrays.empty) := by
  cases hm : l.get? m with
  | none =>
    have hm2 : (l.map (scaleArrays k)).get? m = none := by
      rw [List.get?_map, hm]
      rfl
    show ((l.map (scaleArrays k)).get? m).getD Arrays.empty =
      scaleArrays k ((l.get? m).getD Arrays.empty)
    rw [hm, hm2]
    rfl
  | some a =>
    have hm2 : (l.map (scaleArrays k)).get? m = some (scaleArrays k a) := by
      rw [List.get?_map, hm]
      rfl
    show ((l.map (scaleArrays k)).get? m).getD Arrays.empty =
      scaleArrays k ((l.get? m).getD Arrays.empty)
    rw [hm, hm2]
    rfl

/-- C5: for a fixed buffer and library, a successful build with lod_index = k >
0 produces, for every per-material position list and for the collision surface,
the lod_index = 0 build's positions scaled by 2^k; the only additional
geometry is what the seam pass appends, which is invoked only when k > 0. -/
theorem C5_lod_scaling :
    ∀ (inp : BuildInput) (lib : BakedLibrary),
      inp.params.library = some lib →
      inp.compression = ChannelCompression.raw →
      inp.channelReadable = true →
      (inp.depth = ChannelDepth.bits8 ∨ inp.depth = ChannelDepth.bits16) →
      0 < inp.lodIndex →
      ∃ extra : Nat → List V3,
        (∀ m, posArr (build inp) m =
          (posArr (build { inp with lodIndex := 0 }) m ++ extra m).map
            (V3.smul (2 ^ inp.lodIndex))) ∧
        (build inp).collision.positions =
          (build { inp with lodIndex := 0 }).collision.positions.map
            (V3.smul (2 ^ inp.lodIndex)) ∧
        (∀ m, posAt (appendSeams inp.buffer inp.blockSize lib (mainPass inp lib)) m =
          posAt (mainPass inp lib) m ++ extra m) := by
  intro inp lib hl hc hr hd hlod
  have hex : ∀ m, ∃ e,
      posAt (appendSeams inp.buffer inp.blockSize lib (mainPass inp lib)) m =
        posAt (mainPass inp lib) m ++ e :=
    fun m => appendsPos_appendSeams inp.buffer inp.blockSize lib (mainPass inp lib) m
  choose extra hextra using hex
  refine ⟨extra, ?_, ?_, hextra⟩
  · intro m
    show ((build inp).arraysPerMaterial.getD m Arrays.empty).positions = _
    simp only [build, hl, hc, hr,
      if_neg (show ¬ (ChannelCompression.raw = ChannelCompression.uniform) by decide),
      if_neg (show ¬ (ChannelCompression.raw ≠ ChannelCompression.raw) by decide),
      if_neg (not_not_intro (trivial : True)), if_pos hd,
      if_pos hlod, if_neg (lt_irrefl 0)]
    rw [getD_map_scaleArrays]
    show (posAt (appendSeams inp.buffer inp.blockSize lib (mainPass inp lib)) m).map
      (V3.smul (2 ^ inp.lodIndex)) = _
    rw [hextra m]
    rfl
  · simp only [build, hl, hc, hr,
      if_neg (show ¬ (ChannelCompression.raw = ChannelCompression.uniform) by decide),
      if_neg (show ¬ (ChannelCompression.raw ≠ ChannelCompression.raw) by decide),
      if_neg (not_not_intro (trivial : True)), if_pos hd,
      if_pos hlod, if_neg (lt_irrefl 0)]
    have hseam : (appendSeams inp.buffer inp.blockSize lib (mainPass inp lib)).collision =
        (mainPass inp lib).collision :=
      collision_eq_of_collAcc _ _
        (collAcc_appendSeams inp.buffer inp.blockSize lib (mainPass inp lib))
    show (scaleCollision (2 ^ inp.lodIndex)
      (appendSeams inp.buffer inp.blockSize lib (mainPass inp lib)).collision).positions = _
    rw [hseam]
    rfl

/-- Witness for C5 at the concrete LOD-1 build. -/
theorem C5_lod_scaling_witness :
    ∃ extra : Nat → List V3,
      (∀ m, posArr (build inputSeamCollision) m =
        (posArr (build { inputSeamCollision with lodIndex := 0 }) m ++ extra m).map
          (V3.smul (2 ^ inputSeamCollision.lodIndex))) ∧
      (build inputSeamCollision).collision.positions =
        (build { inputSeamCollision with lodIndex := 0 }).collision.positions.map
          (V3.smul (2 ^ inputSeamCollision.lodIndex)) ∧
      (∀ m, posAt (appendSeams inputSeamCollision.buffer inputSeamCollision.blockSize libOne
          (mainPass inputSeamCollision libOne)) m =
        posAt (mainPass inputSeamCollision libOne) m ++ extra m) :=
  C5_lod_scaling inputSeamCollision libOne rfl rfl rfl (Or.inl rfl) (by decide)

theorem patchOK_zero (b : Bool) : patchOK b 0 0 := by
  cases b with
  | false => show (0 : Nat) = 0; rfl
  | true => show (0 : Nat) = 4 * 0; rfl

theorem patchOK_emit_append (b : Bool) (told pold sst ssp : Nat)
    (hold : patchOK b told pold) (hss : patchOK b sst ssp) :
    patchOK b (told + (if sst > 0 then ssp * 4 else 0)) (pold + ssp) := by
  cases b with
  | false =>
    have h1 : told = 0 := hold
    have h2 : sst = 0 := hss
    show told + (if sst > 0 then ssp * 4 else 0) = 0
    rw [if_neg (by omega : ¬ sst > 0)]
    omega
  | true =>
    have h1 : told = 4 * pold := hold
    have h2 : sst = 4 * ssp := hss
    show told + (if sst > 0 then ssp * 4 else 0) = 4 * (pold + ssp)
    by_cases h : sst > 0
    · rw [if_pos h]; omega
    · rw [if_neg h]; omega

theorem tangent_block_length (t : List ℚ) (n : Nat) :
    (if t.length > 0 then (List.range (n * 4)).map (fun i => t.getD i 0)
      else ([] : List ℚ)).length =
      (if t.length > 0 then n * 4 else 0) := by
  by_cases h : t.length > 0
  · rw [if_pos h, if_pos h, List.length_map, List.length_range]
  · rw [if_neg h, if_neg h]
    rfl

theorem getD_prop {α : Type} (P : α → Prop) (d : α) (hd : P d) (L : List α)
    (h : ∀ x ∈ L, P x) (k : Nat) : P (L.getD k d) := by
  induction L generalizing k with
  | nil => exact hd
  | cons x t ih =>
    cases k with
    | zero => exact h x (List.mem_cons_self x t)
    | succ k => exact ih (fun y hy => h y (List.mem_cons_of_mem x hy)) k

theorem patchOK_surfaces_getD (b : Bool) (L : List Surface)
    (h : ∀ s ∈ L, patchOK b s.tangents.length s.positions.length) (k : Nat) :
    patchOK b ((L.getD k Surface.empty).tangents.length)
      ((L.getD k Surface.empty).positions.length) :=
  getD_prop (fun s => patchOK b s.tangents.length s.positions.length)
    Surface.empty (patchOK_zero b) L h k

theorem patchOK_sides_getD (b : Bool) (L : List (List SideSurface))
    (h : ∀ sss ∈ L, ∀ ss ∈ sss, patchOK b ss.tangents.length ss.positions.length)
    (s2 k : Nat) :
    patchOK b (((L.getD s2 []).getD k SideSurface.empty).tangents.length)
      (((L.getD s2 []).getD k SideSurface.empty).positions.length) := by
  refine getD_prop (fun ss => patchOK b ss.tangents.length ss.positions.length)
    SideSurface.empty (patchOK_zero b) _ ?_ k
  refine getD_prop
    (fun x => ∀ ss ∈ x, patchOK b ss.tangents.length ss.positions.length)
    [] ?_ L h s2
  intro ss hss
  exact absurd hss (List.not_mem_nil ss)

theorem modelTangentsOK_air (b : Bool) : modelTangentsOK b BakedModel.air := by
  cases b <;> decide

theorem modelTangentsOK_modelOf (b : Bool) (lib : BakedLibrary)
    (hlib : libTangentsOK b lib) (id : Nat) : modelTangentsOK b (modelOf lib id) :=
  getD_prop (modelTangentsOK b) BakedModel.air (modelTangentsOK_air b)
    lib.models hlib.1 id

theorem tangentInv_empty (b : Bool) (n : Nat) : TangentInv b (emptyMeshState n) := by
  intro m
  show patchOK b (((List.replicate n Arrays.empty).getD m Arrays.empty).tangents.length)
    (((List.replicate n Arrays.empty).getD m Arrays.empty).positions.length)
  refine getD_prop (fun a => patchOK b a.tangents.length a.positions.length)
    Arrays.empty
    (patchOK_zero b : patchOK b Arrays.empty.tangents.length Arrays.empty.positions.length)
    (List.replicate n Arrays.empty) ?_ m
  intro x hx
  show patchOK b x.tangents.length x.positions.length
  rw [List.eq_of_mem_replicate hx]
  exact (patchOK_zero b :
    patchOK b Arrays.empty.tangents.length Arrays.empty.positions.length)

theorem tangentInv_nil_getD (b : Bool) (m : Nat) :
    patchOK b ((([] : List Arrays).getD m Arrays.empty).tangents.length)
      ((([] : List Arrays).getD m Arrays.empty).positions.length) :=
  getD_prop (fun a => patchOK b a.tangents.length a.positions.length)
    Arrays.empty
    (patchOK_zero b : patchOK b Arrays.empty.tangents.length Arrays.empty.positions.length)
    [] (fun x hx => absurd hx (List.not_mem_nil x)) m

theorem tangentInv_set (b : Bool) (st : MeshState) (mat : Nat) (arr2 : Arrays)
    (c : CollisionSurface) (io : List Int) (cio : Int)
    (hInv : TangentInv b st)
    (h2 : patchOK b arr2.tangents.length arr2.positions.length) :
    TangentInv b ⟨st.arrays.set mat arr2, c, io, cio⟩ := by
  intro m
  show patchOK b ((st.arrays.set mat arr2).getD m Arrays.empty).tangents.length
    ((st.arrays.set mat arr2).getD m Arrays.empty).positions.length
  by_cases hm : mat = m
  · subst hm
    by_cases hlt : mat < st.arrays.length
    · rw [getD_set_self st.arrays mat arr2 Arrays.empty hlt]
      exact h2
    · rw [List.set_eq_of_length_le (by omega : st.arrays.length ≤ mat)]
      exact hInv mat
  · rw [getD_set_ne st.arrays mat m arr2 Arrays.empty hm]
    exact hInv m

theorem setPosY_length (l : List V3) (i : Nat) (yv : ℚ) :
    (setPosY l i yv).length = l.length := by
  unfold setPosY
  cases h : l.get? i with
  | none => rfl
  | some p => exact List.length_set l i _

theorem emitSideSurface_tangentInv (b : Bool) (bo : Bool) (dk : ℚ)
    (sc : List Nat) (side : Nat) (pos : V3) (modulate : Col) (con : Bool)
    (surface : Surface) (ss : SideSurface) (st : MeshState)
    (hss : patchOK b ss.tangents.length ss.positions.length)
    (hInv : TangentInv b st) :
    TangentInv b (emitSideSurface bo dk sc side pos modulate con surface ss st) := by
  simp only [emitSideSurface]
  refine tangentInv_set b st _ _ _ _ _ hInv ?_
  simp only [List.length_append, List.length_map, tangent_block_length]
  exact patchOK_emit_append b _ _ _ _ (hInv surface.material_id) hss

theorem emitInner_tangentInv (b : Bool) (con : Bool) (modulate : Col) (pos : V3)
    (surface : Surface) (st : MeshState)
    (hsurf : patchOK b surface.tangents.length surface.positions.length)
    (hInv : TangentInv b st) :
    TangentInv b (emitInner con modulate pos surface st) := by
  simp only [emitInner]
  by_cases h0 : surface.positions.length = 0
  · rw [if_pos h0]
    exact hInv
  · rw [if_neg h0]
    refine tangentInv_set b st _ _ _ _ _ hInv ?_
    simp only [List.length_append, List.length_map, tangent_block_length]
    exact patchOK_emit_append b _ _ _ _ (hInv surface.material_id) hsurf

theorem foldl_inv {α S : Type} (P : S → Prop) (F : S → α → S)
    (h : ∀ s a, P s → P (F s a)) :
    ∀ (l : List α) (s : S), P s → P (l.foldl F s) := by
  intro l
  induction l with
  | nil => intro s hs; exact hs
  | cons a t ih =>
    intro s hs
    exact ih (F s a) (h s a hs)

theorem patchOK_getD_nilSS (b : Bool) (k : Nat) :
    patchOK b ((([] : List SideSurface).getD k SideSurface.empty).tangents.length)
      ((([] : List SideSurface).getD k SideSurface.empty).positions.length) :=
  patchOK_zero b

theorem patchOK_getD_singleton (b : Bool) (ss0 : SideSurface)
    (h : patchOK b ss0.tangents.length ss0.positions.length) (k : Nat) :
    patchOK b (([ss0].getD k SideSurface.empty).tangents.length)
      (([ss0].getD k SideSurface.empty).positions.length) := by
  cases k with
  | zero => exact h
  | succ k => exact patchOK_zero b

theorem patchOK_getD_singleton_surf (b : Bool) (s0 : Surface)
    (h : patchOK b s0.tangents.length s0.positions.length) (k : Nat) :
    patchOK b (([s0].getD k Surface.empty).tangents.length)
      (([s0].getD k Surface.empty).positions.length) := by
  cases k with
  | zero => exact h
  | succ k => exact patchOK_zero b

theorem generateFluidModel_patchOK (b : Bool) (voxel : BakedModel) (buf : List Nat)
    (idx jy jx jz : Int) (lib : BakedLibrary)
    (hlib : libTangentsOK b lib) (hvoxel : modelTangentsOK b voxel)
    (res : FluidModelData) (hres : generateFluidModel voxel buf idx jy jx jz lib = res) :
    (∀ k, patchOK b ((res.surfaces.getD k Surface.empty).tangents.length)
      ((res.surfaces.getD k Surface.empty).positions.length)) ∧
    (∀ s2 k, patchOK b (((res.sides.getD s2 []).getD k SideSurface.empty).tangents.length)
      (((res.sides.getD s2 []).getD k SideSurface.empty).positions.length)) := by
  have hfl : ∀ fs ∈ (lib.fluids.getD voxel.fluid_index BakedFluid.empty).side_surfaces,
      patchOK b fs.tangents.length fs.positions.length := by
    refine getD_prop
      (fun fl => ∀ fs ∈ fl.side_surfaces, patchOK b fs.tangents.length fs.positions.length)
      BakedFluid.empty ?_ lib.fluids hlib.2 voxel.fluid_index
    intro fs hfs
    exact absurd hfs (List.not_mem_nil fs)
  have hfs : ∀ j, patchOK b
      (((lib.fluids.getD voxel.fluid_index BakedFluid.empty).side_surfaces.getD j
        FluidSurface.empty).tangents.length)
      (((lib.fluids.getD voxel.fluid_index BakedFluid.empty).side_surfaces.getD j
        FluidSurface.empty).positions.length) :=
    fun j => getD_prop (fun fs => patchOK b fs.tangents.length fs.positions.length)
      FluidSurface.empty
      (patchOK_zero b :
        patchOK b FluidSurface.empty.tangents.length FluidSurface.empty.positions.length)
      _ hfl j
  simp only [generateFluidModel] at hres
  by_cases hcov : bufAt buf (idx + jy) < lib.models.length ∧
      (modelOf lib (bufAt buf (idx + jy))).fluid_index = voxel.fluid_index
  · rw [if_pos hcov] at hres
    subst hres
    constructor
    · intro k
      exact patchOK_surfaces_getD b voxel.model.surfaces hvoxel.1 k
    · intro s2 k
      refine getD_prop
        (fun x => patchOK b ((x.getD k SideSurface.empty).tangents.length)
          ((x.getD k SideSurface.empty).positions.length))
        [] (patchOK_getD_nilSS b k) _ ?_ s2
      intro x hx
      simp only [List.mem_cons, List.not_mem_nil, or_false] at hx
      rcases hx with h|h|h|h|h|h <;> subst h
      · exact patchOK_getD_singleton b _ (hfs 0) k
      · exact patchOK_getD_singleton b _ (hfs 1) k
      · exact patchOK_getD_singleton b _ (hfs 2) k
      · exact patchOK_getD_singleton b SideSurface.empty (patchOK_zero b) k
      · exact patchOK_getD_singleton b _ (hfs 4) k
      · exact patchOK_getD_singleton b _ (hfs 5) k
  · rw [if_neg hcov] at hres
    subst hres
    constructor
    · intro k
      refine patchOK_getD_singleton_surf b _ ?_ k
      simp only [copyFluidTop, setPosY_length]
      exact hfs 3
    · intro s2 k
      refine getD_prop
        (fun x => patchOK b ((x.getD k SideSurface.empty).tangents.length)
          ((x.getD k SideSurface.empty).positions.length))
        [] (patchOK_getD_nilSS b k) _ ?_ s2
      intro x hx
      simp only [List.mem_cons, List.not_mem_nil, or_false] at hx
      rcases hx with h|h|h|h|h|h <;> subst h
      · refine patchOK_getD_singleton b _ ?_ k
        simp only [copyFluidSide, setPosY_length]
        exact hfs 0
      · refine patchOK_getD_singleton b _ ?_ k
        simp only [copyFluidSide, setPosY_length]
        exact hfs 1
      · exact patchOK_getD_singleton b _ (hfs 2) k
      · exact patchOK_getD_singleton b SideSurface.empty (patchOK_zero b) k
      · refine patchOK_getD_singleton b _ ?_ k
        simp only [copyFluidSide, setPosY_length]
        exact hfs 4
      · refine patchOK_getD_singleton b _ ?_ k
        simp only [copyFluidSide, setPosY_length]
        exact hfs 5

theorem sideVisibility_patchOK (b : Bool) (lib : BakedLibrary) (voxel : BakedModel)
    (side : Nat) (nId : Nat) (dflt : List SideSurface)
    (hvoxel : modelTangentsOK b voxel)
    (hdflt : ∀ k, patchOK b ((dflt.getD k SideSurface.empty).tangents.length)
      ((dflt.getD k SideSurface.empty).positions.length))
    (sss : List SideSurface) (hv : sideVisibility lib voxel side nId dflt = some sss) :
    ∀ k, patchOK b ((sss.getD k SideSurface.empty).tangents.length)
      ((sss.getD k SideSurface.empty).positions.length) := by
  simp only [sideVisibility] at hv
  by_cases h1 : nId < lib.models.length
  · rw [if_pos h1] at hv
    by_cases h2 : isFaceVisibleRegardlessOfShape voxel (modelOf lib nId) = true
    · rw [if_pos h2] at hv
      injection hv with hv
      subst hv
      exact hdflt
    · rw [if_neg h2] at hv
      by_cases h3 : (!(isFaceVisibleAccordingToShape lib voxel (modelOf lib nId) side)) = true
      · rw [if_pos h3] at hv
        exact absurd hv (by simp)
      · rw [if_neg h3] at hv
        by_cases h4 : voxel.cutout_sides_enabled = true
        · rw [if_pos h4] at hv
          cases hf : assocFind (voxel.model.cutout_side_surfaces.getD side [])
              ((modelOf lib nId).model.side_pattern_indices.getD (oppositeSide side) 0) with
          | none =>
            simp only [hf] at hv
            injection hv with hv
            subst hv
            exact hdflt
          | some cut =>
            simp only [hf] at hv
            injection hv with hv
            subst hv
            unfold assocFind at hf
            cases hfind : List.find?
                (fun pr => pr.1 ==
                  ((modelOf lib nId).model.side_pattern_indices.getD (oppositeSide side) 0))
                (voxel.model.cutout_side_surfaces.getD side []) with
            | none =>
              rw [hfind] at hf
              exact absurd hf (by simp)
            | some pr =>
              rw [hfind] at hf
              have hf2 : pr.2 = cut := by
                simpa using hf
              have hmem : pr ∈ voxel.model.cutout_side_surfaces.getD side [] :=
                List.mem_of_find?_eq_some hfind
              have hcm : ∀ pr2 ∈ voxel.model.cutout_side_surfaces.getD side [],
                  ∀ ss2 ∈ pr2.2, patchOK b ss2.tangents.length ss2.positions.length := by
                refine getD_prop
                  (fun cm => ∀ pr2 ∈ cm, ∀ ss2 ∈ pr2.2,
                    patchOK b ss2.tangents.length ss2.positions.length)
                  [] ?_ voxel.model.cutout_side_surfaces hvoxel.2.2 side
                intro pr2 hpr2 ss2 hss2
                exact absurd hpr2 (List.not_mem_nil pr2)
              intro k
              rw [← hf2]
              exact getD_prop
                (fun ss2 => patchOK b ss2.tangents.length ss2.positions.length)
                SideSurface.empty (patchOK_zero b) pr.2 (hcm pr hmem) k
        · rw [if_neg h4] at hv
          injection hv with hv
          subst hv
          exact hdflt
  · rw [if_neg h1] at hv
    injection hv with hv
    subst hv
    exact hdflt

theorem meshSide_tangentInv (b : Bool) (lib : BakedLibrary) (buf : List Nat)
    (rowSize deckSize : Int) (bo : Bool) (dk : ℚ) (con : Bool)
    (voxel : BakedModel) (msurf : List Surface) (msides : List (List SideSurface))
    (scount : Nat) (idx : Int) (pos : V3) (side : Nat) (st : MeshState)
    (hvoxel : modelTangentsOK b voxel)
    (hdflt : ∀ k, patchOK b (((msides.getD side []).getD k SideSurface.empty).tangents.length)
      (((msides.getD side []).getD k SideSurface.empty).positions.length))
    (hInv : TangentInv b st) :
    TangentInv b (meshSide lib buf rowSize deckSize bo dk con voxel msurf msides
      scount idx pos side st) := by
  simp only [meshSide]
  by_cases hmask : voxel.model.empty_sides_mask.testBit side = true
  · rw [if_pos hmask]
    exact hInv
  · rw [if_neg hmask]
    cases hvis : sideVisibility lib voxel side
        (bufAt buf (idx + sideNeighborLut rowSize deckSize side)) (msides.getD side []) with
    | none =>
      simp only [hvis]
      exact hInv
    | some sss =>
      simp only [hvis]
      have hsss := sideVisibility_patchOK b lib voxel side
        (bufAt buf (idx + sideNeighborLut rowSize deckSize side)) (msides.getD side [])
        hvoxel hdflt sss hvis
      refine foldl_inv (TangentInv b) _ ?_ _ st hInv
      intro s k hs
      exact emitSideSurface_tangentInv b bo dk _ side pos voxel.color con
        (msurf.getD k Surface.empty) (sss.getD k SideSurface.empty) s (hsss k) hs

theorem meshVoxel_tangentInv (b : Bool) (lib : BakedLibrary) (buf : List Nat)
    (rowSize deckSize : Int) (bo : Bool) (dk : ℚ) (con : Bool)
    (x y z : Nat) (st : MeshState)
    (hlib : libTangentsOK b lib) (hInv : TangentInv b st) :
    TangentInv b (meshVoxel lib buf rowSize deckSize bo dk con x y z st) := by
  simp only [meshVoxel]
  by_cases h0 : bufAt buf ((y : Int) + (x : Int) * rowSize + (z : Int) * deckSize) = 0
  · rw [if_pos h0]
    exact hInv
  · rw [if_neg h0]
    by_cases h1 : ¬ hasModel lib
        (bufAt buf ((y : Int) + (x : Int) * rowSize + (z : Int) * deckSize))
    · rw [if_pos h1]
      exact hInv
    · rw [if_neg h1]
      have hvx : modelTangentsOK b
          (modelOf lib (bufAt buf ((y : Int) + (x : Int) * rowSize + (z : Int) * deckSize))) :=
        modelTangentsOK_modelOf b lib hlib _
      by_cases hfl : (modelOf lib
          (bufAt buf ((y : Int) + (x : Int) * rowSize + (z : Int) * deckSize))).fluid_index ≠ 255
      · simp only [if_pos hfl]
        obtain ⟨hS, hSS⟩ := generateFluidModel_patchOK b
          (modelOf lib (bufAt buf ((y : Int) + (x : Int) * rowSize + (z : Int) * deckSize)))
          buf ((y : Int) + (x : Int) * rowSize + (z : Int) * deckSize) 1 rowSize deckSize lib
          hlib hvx _ rfl
        refine foldl_inv (TangentInv b) _ ?_ _ _
          (foldl_inv (TangentInv b) _ ?_ _ st hInv)
        · intro s k hs
          exact emitInner_tangentInv b con _ _ _ s (hS k) hs
        · intro s side hs
          exact meshSide_tangentInv b lib buf rowSize deckSize bo dk con _ _ _ _ _ _ side s
            hvx (hSS side) hs
      · simp only [if_neg hfl]
        refine foldl_inv (TangentInv b) _ ?_ _ _
          (foldl_inv (TangentInv b) _ ?_ _ st hInv)
        · intro s k hs
          exact emitInner_tangentInv b con _ _ _ s (patchOK_surfaces_getD b _ hvx.1 k) hs
        · intro s side hs
          exact meshSide_tangentInv b lib buf rowSize deckSize bo dk con _ _ _ _ _ _ side s
            hvx (patchOK_sides_getD b _ hvx.2.1 side) hs

theorem generateBlockyMesh_tangentInv (b : Bool) (lib : BakedLibrary) (buf : List Nat)
    (blockSize : Nat × Nat × Nat) (bo : Bool) (dk : ℚ) (con : Bool) (mc : Nat)
    (hlib : libTangentsOK b lib) :
    TangentInv b (generateBlockyMesh lib buf blockSize bo dk con mc) := by
  simp only [generateBlockyMesh]
  by_cases hsz : blockSize.1 < 2 ∨ blockSize.2.1 < 2 ∨ blockSize.2.2 < 2
  · rw [if_pos hsz]
    exact tangentInv_empty b mc
  · rw [if_neg hsz]
    refine foldl_inv (TangentInv b) _ ?_ _ _ (tangentInv_empty b mc)
    intro s z hs
    refine foldl_inv (TangentInv b) _ ?_ _ _ hs
    intro s2 x hs2
    refine foldl_inv (TangentInv b) _ ?_ _ _ hs2
    intro s3 y hs3
    exact meshVoxel_tangentInv b lib buf _ _ bo dk con x y z s3 hlib hs3

theorem seamCell_tangentInv (b : Bool) (buf : List Nat) (jump : Int × Int × Int)
    (z : Int) (side : Nat) (lib : BakedLibrary) (x y : Nat) (st : MeshState)
    (hlib : libTangentsOK b lib) (hInv : TangentInv b st) :
    TangentInv b (seamCell buf jump z side lib x y st) := by
  simp only [seamCell]
  by_cases h0 : bufAt buf ((x : Int) * jump.1 + (y : Int) * jump.2.1 + z * jump.2.2) = 0
  · rw [if_pos h0]
    exact hInv
  · rw [if_neg h0]
    by_cases h1 :
        bufAt buf ((x : Int) * jump.1 + (y : Int) * jump.2.1 + z * jump.2.2 - jump.1) ≠ 0 ∧
        bufAt buf ((x : Int) * jump.1 + (y : Int) * jump.2.1 + z * jump.2.2 + jump.1) ≠ 0 ∧
        bufAt buf ((x : Int) * jump.1 + (y : Int) * jump.2.1 + z * jump.2.2 - jump.2.1) ≠ 0 ∧
        bufAt buf ((x : Int) * jump.1 + (y : Int) * jump.2.1 + z * jump.2.2 + jump.2.1) ≠ 0
    · rw [if_pos h1]
      exact hInv
    · rw [if_neg h1]
      by_cases h2 : bufAt buf ((x : Int) * jump.1 + (y : Int) * jump.2.1 + z * jump.2.2 -
          getSideSign side * jump.2.2) = 0
      · rw [if_pos h2]
        exact hInv
      · rw [if_neg h2]
        have hvx : modelTangentsOK b (modelOf lib
            (bufAt buf ((x : Int) * jump.1 + (y : Int) * jump.2.1 + z * jump.2.2 -
              getSideSign side * jump.2.2))) :=
          modelTangentsOK_modelOf b lib hlib _
        refine foldl_inv (TangentInv b) _ ?_ _ st hInv
        intro s k hs
        refine tangentInv_set b s _ _ _ _ _ hs ?_
        simp only [List.length_append, List.length_map, tangent_block_length]
        exact patchOK_emit_append b _ _ _ _ (hs _)
          (patchOK_sides_getD b _ hvx.2.1 side side)

theorem appendSideSeams_tangentInv (b : Bool) (buf : List Nat) (jump : Int × Int × Int)
    (z : Int) (sizeX sizeY : Nat) (side : Nat) (lib : BakedLibrary) (st : MeshState)
    (hlib : libTangentsOK b lib) (hInv : TangentInv b st) :
    TangentInv b (appendSideSeams buf jump z sizeX sizeY side lib st) := by
  simp only [appendSideSeams]
  refine foldl_inv (TangentInv b) _ ?_ _ st hInv
  intro s x hs
  refine foldl_inv (TangentInv b) _ ?_ _ s hs
  intro s2 y hs2
  exact seamCell_tangentInv b buf jump z side lib x y s2 hlib hs2

theorem appendSeams_tangentInv (b : Bool) (buf : List Nat) (blockSize : Nat × Nat × Nat)
    (lib : BakedLibrary) (st : MeshState)
    (hlib : libTangentsOK b lib) (hInv : TangentInv b st) :
    TangentInv b (appendSeams buf blockSize lib st) := by
  simp only [appendSeams]
  exact appendSideSeams_tangentInv b _ _ _ _ _ _ lib _ hlib
    (appendSideSeams_tangentInv b _ _ _ _ _ _ lib _ hlib
      (appendSideSeams_tangentInv b _ _ _ _ _ _ lib _ hlib
        (appendSideSeams_tangentInv b _ _ _ _ _ _ lib _ hlib
          (appendSideSeams_tangentInv b _ _ _ _ _ _ lib _ hlib
            (appendSideSeams_tangentInv b _ _ _ _ _ _ lib _ hlib hInv)))))

theorem scaleArrays_patch (b : Bool) (k : ℚ) (a : Arrays)
    (h : patchOK b a.tangents.length a.positions.length) :
    patchOK b ((scaleArrays k a).tangents.length) ((scaleArrays k a).positions.length) := by
  simp only [scaleArrays, List.length_map]
  exact h

/-- Counterexample to C9 as stated: over a library whose model mixes a side
patch with tangents and one without on the same material, a build produces a
per-material tangents array of length 4 with 2 positions; 4 is neither 0 nor
4 times 2. -/
theorem C9_mixed_tangents_counterexample :
    ((build inputMixedTangents).arraysPerMaterial.getD 0 Arrays.empty).tangents.length = 4 ∧
    ((build inputMixedTangents).arraysPerMaterial.getD 0 Arrays.empty).positions.length = 2 ∧
    ¬ ((4 : Nat) = 0 ∨ (4 : Nat) = 4 * 2) :=
  ⟨by decide, by decide, by decide⟩

/-- C9 (amended): over a tangent-uniform library - one in which every baked
patch (model surfaces, model side surfaces, cutout side surfaces and fluid
skirt templates) either carries tangents of length exactly 4 times its vertex
count (b = true) or carries none (b = false) - every build satisfies the
per-material tangent arity invariant: each output material's tangents array
has length 0 or exactly 4 times its positions array length. -/
theorem C9_tangent_arity (inp : BuildInput) (lib : BakedLibrary) (b : Bool)
    (hl : inp.params.library = some lib) (ht : libTangentsOK b lib) (m : Nat) :
    ((build inp).arraysPerMaterial.getD m Arrays.empty).tangents.length = 0 ∨
    ((build inp).arraysPerMaterial.getD m Arrays.empty).tangents.length =
      4 * ((build inp).arraysPerMaterial.getD m Arrays.empty).positions.length := by
  have key : patchOK b ((build inp).arraysPerMaterial.getD m Arrays.empty).tangents.length
      ((build inp).arraysPerMaterial.getD m Arrays.empty).positions.length := by
    simp only [build, hl]
    by_cases hc1 : inp.compression = ChannelCompression.uniform
    · rw [if_pos hc1]
      exact tangentInv_nil_getD b m
    · rw [if_neg hc1]
      by_cases hc2 : inp.compression ≠ ChannelCompression.raw
      · rw [if_pos hc2]
        exact tangentInv_nil_getD b m
      · rw [if_neg hc2]
        by_cases hr : ¬ inp.channelReadable = true
        · rw [if_pos hr]
          exact tangentInv_nil_getD b m
        · rw [if_neg hr]
          by_cases hd : inp.depth = ChannelDepth.bits8 ∨ inp.depth = ChannelDepth.bits16
          · rw [if_pos hd]
            have hmain : TangentInv b (generateBlockyMesh lib inp.buffer inp.blockSize
                inp.params.bake_occlusion (effectiveOcclusionDarkness inp.params)
                inp.collisionHint lib.indexed_materials_count) :=
              generateBlockyMesh_tangentInv b lib inp.buffer inp.blockSize
                inp.params.bake_occlusion (effectiveOcclusionDarkness inp.params)
                inp.collisionHint lib.indexed_materials_count ht
            by_cases hlod : 0 < inp.lodIndex
            · simp only [if_pos hlod]
              rw [getD_map_scaleArrays]
              exact scaleArrays_patch b _ _
                (appendSeams_tangentInv b inp.buffer inp.blockSize lib _ ht hmain m)
            · simp only [if_neg hlod]
              exact hmain m
          · rw [if_neg hd]
            exact tangentInv_nil_getD b m
  cases b with
  | false => exact Or.inl key
  | true => exact Or.inr key

/-- Witness for the amended C9: the concrete LOD-1 collision build over the
tangent-free library satisfies the arity invariant at material 0. -/
theorem C9_tangent_arity_witness :
    inputSeamCollision.params.library = some libOne ∧ libTangentsOK false libOne ∧
    (((build inputSeamCollision).arraysPerMaterial.getD 0 Arrays.empty).tangents.length = 0 ∨
     ((build inputSeamCollision).arraysPerMaterial.getD 0 Arrays.empty).tangents.length =
       4 * ((build inputSeamCollision).arraysPerMaterial.getD 0 Arrays.empty).positions.length) :=
  ⟨rfl, by decide, C9_tangent_arity inputSeamCollision libOne false rfl (by decide) 0⟩

end VoxelBlocky
